import Mathlib

/-!
Verification of the Sudoku solver/generator in `src/sudoku_solver_gen3.py`.

The grid is a 9x9 matrix of integers, 0 denoting an empty cell (`Board.grid`
in the source).  We embed it as `List (List Nat)`.  Each definition below is a
direct translation of the correspondingly named method of the `Board` class;
mutation of `self.grid` becomes explicit grid passing, the recursion of
`Board.solve` is bounded by an explicit fuel parameter (shown sufficient in
`solveFuel_total`), and the `random.shuffle` of the generator is modelled by
an arbitrary cell order passed as a parameter.
-/

namespace Sudoku

/-- `Board.grid`: the 9x9 matrix, row-major, 0 = empty. -/
abbrev Grid := List (List Nat)

/-- `self.grid[r][c]` (out-of-range reads default to 0; the source only ever
reads in range). -/
def getCell (g : Grid) (r c : Nat) : Nat := (g.getD r []).getD c 0

/-- `self.grid[r][c] = v` (out-of-range writes are the identity; the source
only ever writes in range). -/
def setCell (g : Grid) (r c v : Nat) : Grid := g.set r ((g.getD r []).set c v)

/-- `Board.get_row` (line 139): `return self.grid[row]`. -/
def get_row (g : Grid) (row : Nat) : List Nat := g.getD row []

/-- `Board.get_col` (line 148): `[self.grid[i][col] for i in range(BOARD_SIZE)]`. -/
def get_col (g : Grid) (col : Nat) : List Nat :=
  (List.range 9).map (fun i => getCell g i col)

/-- `Board.get_box` (line 157): values of the 3x3 box containing (row, col),
box origin `(row // 3) * 3, (col // 3) * 3`. -/
def get_box (g : Grid) (row col : Nat) : List Nat :=
  (List.range 3).flatMap (fun i =>
    (List.range 3).map (fun j => getCell g (row / 3 * 3 + i) (col / 3 * 3 + j)))

/-- `Board.get_valid_numbers` (line 122): digits 1..9 not present in the union
of the row, column and box of the cell (Python builds `set(row+col+box)`;
membership in that set is membership in the concatenated list). -/
def get_valid_numbers (g : Grid) (row col : Nat) : List Nat :=
  let used_nums := get_row g row ++ get_col g col ++ get_box g row col
  (List.range' 1 9).filter (fun num => decide (num ∉ used_nums))

/-- `Board.get_empty_cells` (line 133): coordinates of all zero cells of the
9x9 grid in row-major order (`np.where` on the 9x9 array). -/
def get_empty_cells (g : Grid) : List (Nat × Nat) :=
  (List.range 9).flatMap (fun i =>
    (List.range 9).filterMap (fun j =>
      if getCell g i j = 0 then some (i, j) else none))

/-- `Board.is_solved` (line 108): no empty cells and every cell's candidate
list equals the singleton of its current value. -/
def is_solved (g : Grid) : Bool :=
  (get_empty_cells g).isEmpty &&
    (List.range 9).all (fun i => (List.range 9).all (fun j =>
      get_valid_numbers g i j == [getCell g i j]))

/-- Python `min(l, key=f)` starting from current best `a`: returns the first
element of `a :: l` attaining the minimal key (only a strictly smaller key
replaces the current best). -/
def argminFirst (f : α → Nat) : α → List α → α
  | best, [] => best
  | best, x :: xs => if f x < f best then argminFirst f x xs else argminFirst f best xs

/-- `Board.get_min_remaining_values_cell` (line 173): `None` when there is no
empty cell, else `min(empty_cells, key=lambda x: len(get_valid_numbers(*x)))`. -/
def get_min_remaining_values_cell (g : Grid) : Option (Nat × Nat) :=
  match get_empty_cells g with
  | [] => none
  | c :: cs => some (argminFirst (fun p => (get_valid_numbers g p.1 p.2).length) c cs)

/-- The `for num in valid_nums` loop of `Board.solve` (lines 198-203):
place `num`, recurse (`solveRec`), on success propagate, on failure reset
the cell to 0 and try the next candidate; when the candidates are exhausted
report `False`.  `none` signals fuel exhaustion of `solveRec` and is
propagated. -/
def tryNums (solveRec : Grid → Option (Bool × Grid)) (r c : Nat) :
    Grid → List Nat → Option (Bool × Grid)
  | g, [] => some (false, g)
  | g, num :: rest =>
    match solveRec (setCell g r c num) with
    | none => none
    | some (true, g2) => some (true, g2)
    | some (false, g2) => tryNums solveRec r c (setCell g2 r c 0) rest

/-- `Board.solve` (line 185) with explicit fuel bounding the recursion depth:
pick the minimum-remaining-values cell; if none the board is complete
(`True`); else try its candidates in ascending order.  `none` is returned
only on fuel exhaustion; `solveFuel_total` below shows that fuel
`(get_empty_cells g).length + 1` always suffices, so with fuel 82 the
embedding computes exactly what the Python recursion computes. -/
def solveFuel : Nat → Grid → Option (Bool × Grid)
  | 0, _ => none
  | n + 1, g =>
    match get_min_remaining_values_cell g with
    | none => some (true, g)
    | some (r, c) => tryNums (solveFuel n) r c g (get_valid_numbers g r c)

/-- `Board.solve`: the Python method mutates `self.grid` and returns a Bool;
we return the pair.  Fuel 82 exceeds the maximal recursion depth (one level
per empty cell, at most 81, plus the final complete-board level), so the
default branch of `getD` is never taken on a 9x9 grid
(theorem `solveFuel_total`). -/
def Board.solve (g : Grid) : Bool × Grid := (solveFuel 82 g).getD (false, g)

/-- The empty grid `[[0]*9]*9` built at line 86. -/
def empty_grid : Grid := List.replicate 9 (List.replicate 9 0)

/-- The inner sampling loop of `Board.__create_board` (lines 95-104): up to 10
trials; each trial deep-copies the board, restores the cleared cell's original
value `temp` on the copy, re-solves the copy and tests `is_solved`; `count`
is incremented on a solved trial, and as soon as `count > 1` the cell is
restored on the real board and the loop breaks. -/
def sampling_trials : Nat → Nat → Grid → Nat → Nat → Nat → Grid
  | 0, _, g, _, _, _ => g
  | n + 1, count, g, i, j, temp =>
    let temp_board := (Board.solve (setCell g i j temp)).2
    let count2 := if is_solved temp_board then count + 1 else count
    if 1 < count2 then setCell g i j temp
    else sampling_trials n count2 g i j temp

/-- The cell-removal loop of `Board.__create_board` (lines 92-106): for each
coordinate in the (shuffled) order, remember the value, clear the cell, run
the sampling trials (which may restore the cell), and stop as soon as the
number of empty cells reaches `num_zeros`. -/
def remove_cells (num_zeros : Nat) : List (Nat × Nat) → Grid → Grid
  | [], g => g
  | (i, j) :: cells, g =>
    let temp := getCell g i j
    let g1 := setCell g i j 0
    let g2 := sampling_trials 10 0 g1 i j temp
    if num_zeros ≤ (get_empty_cells g2).length then g2
    else remove_cells num_zeros cells g2

/-- `Board.difficulty_values` (line 57), as an association list. -/
def difficulty_values : List (String × Nat) :=
  [("easy", 30), ("medium", 40), ("hard", 50), ("expert", 60)]

/-- Python dict indexing `self.difficulty_values[difficulty]`: `some` of the
stored count, `none` when the key is absent (Python raises `KeyError`). -/
def lookup_difficulty (d : String) : Option Nat :=
  (difficulty_values.find? (fun p => p.1 == d)).map (fun p => p.2)

/-- The list `[(i, j) for i in range(9) for j in range(9)]` of line 90. -/
def all_cells : List (Nat × Nat) :=
  (List.range 9).flatMap (fun i => (List.range 9).map (fun j => (i, j)))

/-- `Board.__create_board` (line 77): build the empty grid, solve it in place,
look up the difficulty's target count of empty cells (a missing key raises
`KeyError`), then remove cells following `order` (the result of
`random.shuffle` on `all_cells`, passed here as a parameter). -/
def create_board (difficulty : String) (order : List (Nat × Nat)) : Except String Grid :=
  let g := (Board.solve empty_grid).2
  match lookup_difficulty difficulty with
  | none => Except.error "KeyError"
  | some num_zeros => Except.ok (remove_cells num_zeros order g)

/-- The assert of `Board.__init__` (line 73) tests
`difficulty != self.difficulty_values`: a Python string is never equal to a
dict, so the condition is True for every difficulty string and the assertion
never fires. -/
def assert_cond (_difficulty : String) : Bool := true

/-- `Board.__init__` (line 64): the assert, then `__create_board`. -/
def board_init (difficulty : String) (order : List (Nat × Nat)) : Except String Grid :=
  if assert_cond difficulty then create_board difficulty order
  else Except.error "AssertionError"

/-- The digits 1-9. -/
def digits : List Nat := [1, 2, 3, 4, 5, 6, 7, 8, 9]

/-- Every row, every column and every 3x3 box of `g` is a permutation of the
digits 1-9 (the box with index `k` has origin `(k / 3 * 3, k % 3 * 3)`). -/
def all_units_perm (g : Grid) : Prop :=
  ∀ k < 9, (get_row g k).Perm digits ∧ (get_col g k).Perm digits ∧
    (get_box g (k / 3 * 3) (k % 3 * 3)).Perm digits

/-- Well-formedness: the grid really is 9x9 (`Board` maintains this shape
throughout its lifetime). -/
def WF9 (g : Grid) : Prop := g.length = 9 ∧ ∀ row ∈ g, row.length = 9

/-- The complete grid produced by `Board.solve` on the empty grid
(theorem `solve_empty_eval`). -/
def solved_base : Grid :=
  [[1, 2, 3, 4, 5, 6, 7, 8, 9], [4, 5, 6, 7, 8, 9, 1, 2, 3], [7, 8, 9, 1, 2, 3, 4, 5, 6],
   [2, 3, 1, 6, 7, 4, 8, 9, 5], [8, 7, 5, 9, 1, 2, 3, 6, 4], [6, 9, 4, 5, 3, 8, 2, 1, 7],
   [3, 1, 7, 2, 6, 5, 9, 4, 8], [5, 4, 2, 8, 9, 7, 6, 3, 1], [9, 6, 8, 3, 4, 1, 5, 7, 2]]

instance (g : Grid) : Decidable (WF9 g) :=
  inferInstanceAs (Decidable (g.length = 9 ∧ ∀ row ∈ g, row.length = 9))

instance (g : Grid) : Decidable (all_units_perm g) :=
  inferInstanceAs (Decidable (∀ k, k < 9 →
    ((get_row g k).Perm digits ∧ (get_col g k).Perm digits ∧
      (get_box g (k / 3 * 3) (k % 3 * 3)).Perm digits)))

/-- A grid on which `Board.solve` fails: cell (0, 8) has no candidate (its row
holds 1-8 and its column holds 9). -/
def unsolvable_grid : Grid :=
  [[1, 2, 3, 4, 5, 6, 7, 8, 0],
   [0, 0, 0, 0, 0, 0, 0, 0, 9],
   [0, 0, 0, 0, 0, 0, 0, 0, 0],
   [0, 0, 0, 0, 0, 0, 0, 0, 0],
   [0, 0, 0, 0, 0, 0, 0, 0, 0],
   [0, 0, 0, 0, 0, 0, 0, 0, 0],
   [0, 0, 0, 0, 0, 0, 0, 0, 0],
   [0, 0, 0, 0, 0, 0, 0, 0, 0],
   [0, 0, 0, 0, 0, 0, 0, 0, 0]]

/-- Intermediate grids of the (backtrack-free) run of `Board.solve` on the
empty grid: `sg0` is the empty grid and `sgK` is the grid after the first `K`
placements; the run ends in `solved_base`.  Used by the step lemmas proving
`solve_empty_eval`. -/
def sg0 : Grid := [[0, 0, 0, 0, 0, 0, 0, 0, 0],
 [0, 0, 0, 0, 0, 0, 0, 0, 0],
 [0, 0, 0, 0, 0, 0, 0, 0, 0],
 [0, 0, 0, 0, 0, 0, 0, 0, 0],
 [0, 0, 0, 0, 0, 0, 0, 0, 0],
 [0, 0, 0, 0, 0, 0, 0, 0, 0],
 [0, 0, 0, 0, 0, 0, 0, 0, 0],
 [0, 0, 0, 0, 0, 0, 0, 0, 0],
 [0, 0, 0, 0, 0, 0, 0, 0, 0]]

def sg1 : Grid := [[1, 0, 0, 0, 0, 0, 0, 0, 0],
 [0, 0, 0, 0, 0, 0, 0, 0, 0],
 [0, 0, 0, 0, 0, 0, 0, 0, 0],
 [0, 0, 0, 0, 0, 0, 0, 0, 0],
 [0, 0, 0, 0, 0, 0, 0, 0, 0],
 [0, 0, 0, 0, 0, 0, 0, 0, 0],
 [0, 0, 0, 0, 0, 0, 0, 0, 0],
 [0, 0, 0, 0, 0, 0, 0, 0, 0],
 [0, 0, 0, 0, 0, 0, 0, 0, 0]]

def sg2 : Grid := [[1, 2, 0, 0, 0, 0, 0, 0, 0],
 [0, 0, 0, 0, 0, 0, 0, 0, 0],
 [0, 0, 0, 0, 0, 0, 0, 0, 0],
 [0, 0, 0, 0, 0, 0, 0, 0, 0],
 [0, 0, 0, 0, 0, 0, 0, 0, 0],
 [0, 0, 0, 0, 0, 0, 0, 0, 0],
 [0, 0, 0, 0, 0, 0, 0, 0, 0],
 [0, 0, 0, 0, 0, 0, 0, 0, 0],
 [0, 0, 0, 0, 0, 0, 0, 0, 0]]

def sg3 : Grid := [[1, 2, 3, 0, 0, 0, 0, 0, 0],
 [0, 0, 0, 0, 0, 0, 0, 0, 0],
 [0, 0, 0, 0, 0, 0, 0, 0, 0],
 [0, 0, 0, 0, 0, 0, 0, 0, 0],
 [0, 0, 0, 0, 0, 0, 0, 0, 0],
 [0, 0, 0, 0, 0, 0, 0, 0, 0],
 [0, 0, 0, 0, 0, 0, 0, 0, 0],
 [0, 0, 0, 0, 0, 0, 0, 0, 0],
 [0, 0, 0, 0, 0, 0, 0, 0, 0]]

def sg4 : Grid := [[1, 2, 3, 4, 0, 0, 0, 0, 0],
 [0, 0, 0, 0, 0, 0, 0, 0, 0],
 [0, 0, 0, 0, 0, 0, 0, 0, 0],
 [0, 0, 0, 0, 0, 0, 0, 0, 0],
 [0, 0, 0, 0, 0, 0, 0, 0, 0],
 [0, 0, 0, 0, 0, 0, 0, 0, 0],
 [0, 0, 0, 0, 0, 0, 0, 0, 0],
 [0, 0, 0, 0, 0, 0, 0, 0, 0],
 [0, 0, 0, 0, 0, 0, 0, 0, 0]]

def sg5 : Grid := [[1, 2, 3, 4, 5, 0, 0, 0, 0],
 [0, 0, 0, 0, 0, 0, 0, 0, 0],
 [0, 0, 0, 0, 0, 0, 0, 0, 0],
 [0, 0, 0, 0, 0, 0, 0, 0, 0],
 [0, 0, 0, 0, 0, 0, 0, 0, 0],
 [0, 0, 0, 0, 0, 0, 0, 0, 0],
 [0, 0, 0, 0, 0, 0, 0, 0, 0],
 [0, 0, 0, 0, 0, 0, 0, 0, 0],
 [0, 0, 0, 0, 0, 0, 0, 0, 0]]

def sg6 : Grid := [[1, 2, 3, 4, 5, 6, 0, 0, 0],
 [0, 0, 0, 0, 0, 0, 0, 0, 0],
 [0, 0, 0, 0, 0, 0, 0, 0, 0],
 [0, 0, 0, 0, 0, 0, 0, 0, 0],
 [0, 0, 0, 0, 0, 0, 0, 0, 0],
 [0, 0, 0, 0, 0, 0, 0, 0, 0],
 [0, 0, 0, 0, 0, 0, 0, 0, 0],
 [0, 0, 0, 0, 0, 0, 0, 0, 0],
 [0, 0, 0, 0, 0, 0, 0, 0, 0]]

def sg7 : Grid := [[1, 2, 3, 4, 5, 6, 7, 0, 0],
 [0, 0, 0, 0, 0, 0, 0, 0, 0],
 [0, 0, 0, 0, 0, 0, 0, 0, 0],
 [0, 0, 0, 0, 0, 0, 0, 0, 0],
 [0, 0, 0, 0, 0, 0, 0, 0, 0],
 [0, 0, 0, 0, 0, 0, 0, 0, 0],
 [0, 0, 0, 0, 0, 0, 0, 0, 0],
 [0, 0, 0, 0, 0, 0, 0, 0, 0],
 [0, 0, 0, 0, 0, 0, 0, 0, 0]]

def sg8 : Grid := [[1, 2, 3, 4, 5, 6, 7, 8, 0],
 [0, 0, 0, 0, 0, 0, 0, 0, 0],
 [0, 0, 0, 0, 0, 0, 0, 0, 0],
 [0, 0, 0, 0, 0, 0, 0, 0, 0],
 [0, 0, 0, 0, 0, 0, 0, 0, 0],
 [0, 0, 0, 0, 0, 0, 0, 0, 0],
 [0, 0, 0, 0, 0, 0, 0, 0, 0],
 [0, 0, 0, 0, 0, 0, 0, 0, 0],
 [0, 0, 0, 0, 0, 0, 0, 0, 0]]

def sg9 : Grid := [[1, 2, 3, 4, 5, 6, 7, 8, 9],
 [0, 0, 0, 0, 0, 0, 0, 0, 0],
 [0, 0, 0, 0, 0, 0, 0, 0, 0],
 [0, 0, 0, 0, 0, 0, 0, 0, 0],
 [0, 0, 0, 0, 0, 0, 0, 0, 0],
 [0, 0, 0, 0, 0, 0, 0, 0, 0],
 [0, 0, 0, 0, 0, 0, 0, 0, 0],
 [0, 0, 0, 0, 0, 0, 0, 0, 0],
 [0, 0, 0, 0, 0, 0, 0, 0, 0]]

def sg10 : Grid := [[1, 2, 3, 4, 5, 6, 7, 8, 9],
 [4, 0, 0, 0, 0, 0, 0, 0, 0],
 [0, 0, 0, 0, 0, 0, 0, 0, 0],
 [0, 0, 0, 0, 0, 0, 0, 0, 0],
 [0, 0, 0, 0, 0, 0, 0, 0, 0],
 [0, 0, 0, 0, 0, 0, 0, 0, 0],
 [0, 0, 0, 0, 0, 0, 0, 0, 0],
 [0, 0, 0, 0, 0, 0, 0, 0, 0],
 [0, 0, 0, 0, 0, 0, 0, 0, 0]]

def sg11 : Grid := [[1, 2, 3, 4, 5, 6, 7, 8, 9],
 [4, 5, 0, 0, 0, 0, 0, 0, 0],
 [0, 0, 0, 0, 0, 0, 0, 0, 0],
 [0, 0, 0, 0, 0, 0, 0, 0, 0],
 [0, 0, 0, 0, 0, 0, 0, 0, 0],
 [0, 0, 0, 0, 0, 0, 0, 0, 0],
 [0, 0, 0, 0, 0, 0, 0, 0, 0],
 [0, 0, 0, 0, 0, 0, 0, 0, 0],
 [0, 0, 0, 0, 0, 0, 0, 0, 0]]

def sg12 : Grid := [[1, 2, 3, 4, 5, 6, 7, 8, 9],
 [4, 5, 6, 0, 0, 0, 0, 0, 0],
 [0, 0, 0, 0, 0, 0, 0, 0, 0],
 [0, 0, 0, 0, 0, 0, 0, 0, 0],
 [0, 0, 0, 0, 0, 0, 0, 0, 0],
 [0, 0, 0, 0, 0, 0, 0, 0, 0],
 [0, 0, 0, 0, 0, 0, 0, 0, 0],
 [0, 0, 0, 0, 0, 0, 0, 0, 0],
 [0, 0, 0, 0, 0, 0, 0, 0, 0]]

def sg13 : Grid := [[1, 2, 3, 4, 5, 6, 7, 8, 9],
 [4, 5, 6, 0, 0, 0, 1, 0, 0],
 [0, 0, 0, 0, 0, 0, 0, 0, 0],
 [0, 0, 0, 0, 0, 0, 0, 0, 0],
 [0, 0, 0, 0, 0, 0, 0, 0, 0],
 [0, 0, 0, 0, 0, 0, 0, 0, 0],
 [0, 0, 0, 0, 0, 0, 0, 0, 0],
 [0, 0, 0, 0, 0, 0, 0, 0, 0],
 [0, 0, 0, 0, 0, 0, 0, 0, 0]]

def sg14 : Grid := [[1, 2, 3, 4, 5, 6, 7, 8, 9],
 [4, 5, 6, 0, 0, 0, 1, 2, 0],
 [0, 0, 0, 0, 0, 0, 0, 0, 0],
 [0, 0, 0, 0, 0, 0, 0, 0, 0],
 [0, 0, 0, 0, 0, 0, 0, 0, 0],
 [0, 0, 0, 0, 0, 0, 0, 0, 0],
 [0, 0, 0, 0, 0, 0, 0, 0, 0],
 [0, 0, 0, 0, 0, 0, 0, 0, 0],
 [0, 0, 0, 0, 0, 0, 0, 0, 0]]

def sg15 : Grid := [[1, 2, 3, 4, 5, 6, 7, 8, 9],
 [4, 5, 6, 0, 0, 0, 1, 2, 3],
 [0, 0, 0, 0, 0, 0, 0, 0, 0],
 [0, 0, 0, 0, 0, 0, 0, 0, 0],
 [0, 0, 0, 0, 0, 0, 0, 0, 0],
 [0, 0, 0, 0, 0, 0, 0, 0, 0],
 [0, 0, 0, 0, 0, 0, 0, 0, 0],
 [0, 0, 0, 0, 0, 0, 0, 0, 0],
 [0, 0, 0, 0, 0, 0, 0, 0, 0]]

def sg16 : Grid := [[1, 2, 3, 4, 5, 6, 7, 8, 9],
 [4, 5, 6, 7, 0, 0, 1, 2, 3],
 [0, 0, 0, 0, 0, 0, 0, 0, 0],
 [0, 0, 0, 0, 0, 0, 0, 0, 0],
 [0, 0, 0, 0, 0, 0, 0, 0, 0],
 [0, 0, 0, 0, 0, 0, 0, 0, 0],
 [0, 0, 0, 0, 0, 0, 0, 0, 0],
 [0, 0, 0, 0, 0, 0, 0, 0, 0],
 [0, 0, 0, 0, 0, 0, 0, 0, 0]]

def sg17 : Grid := [[1, 2, 3, 4, 5, 6, 7, 8, 9],
 [4, 5, 6, 7, 8, 0, 1, 2, 3],
 [0, 0, 0, 0, 0, 0, 0, 0, 0],
 [0, 0, 0, 0, 0, 0, 0, 0, 0],
 [0, 0, 0, 0, 0, 0, 0, 0, 0],
 [0, 0, 0, 0, 0, 0, 0, 0, 0],
 [0, 0, 0, 0, 0, 0, 0, 0, 0],
 [0, 0, 0, 0, 0, 0, 0, 0, 0],
 [0, 0, 0, 0, 0, 0, 0, 0, 0]]

def sg18 : Grid := [[1, 2, 3, 4, 5, 6, 7, 8, 9],
 [4, 5, 6, 7, 8, 9, 1, 2, 3],
 [0, 0, 0, 0, 0, 0, 0, 0, 0],
 [0, 0, 0, 0, 0, 0, 0, 0, 0],
 [0, 0, 0, 0, 0, 0, 0, 0, 0],
 [0, 0, 0, 0, 0, 0, 0, 0, 0],
 [0, 0, 0, 0, 0, 0, 0, 0, 0],
 [0, 0, 0, 0, 0, 0, 0, 0, 0],
 [0, 0, 0, 0, 0, 0, 0, 0, 0]]

def sg19 : Grid := [[1, 2, 3, 4, 5, 6, 7, 8, 9],
 [4, 5, 6, 7, 8, 9, 1, 2, 3],
 [7, 0, 0, 0, 0, 0, 0, 0, 0],
 [0, 0, 0, 0, 0, 0, 0, 0, 0],
 [0, 0, 0, 0, 0, 0, 0, 0, 0],
 [0, 0, 0, 0, 0, 0, 0, 0, 0],
 [0, 0, 0, 0, 0, 0, 0, 0, 0],
 [0, 0, 0, 0, 0, 0, 0, 0, 0],
 [0, 0, 0, 0, 0, 0, 0, 0, 0]]

def sg20 : Grid := [[1, 2, 3, 4, 5, 6, 7, 8, 9],
 [4, 5, 6, 7, 8, 9, 1, 2, 3],
 [7, 8, 0, 0, 0, 0, 0, 0, 0],
 [0, 0, 0, 0, 0, 0, 0, 0, 0],
 [0, 0, 0, 0, 0, 0, 0, 0, 0],
 [0, 0, 0, 0, 0, 0, 0, 0, 0],
 [0, 0, 0, 0, 0, 0, 0, 0, 0],
 [0, 0, 0, 0, 0, 0, 0, 0, 0],
 [0, 0, 0, 0, 0, 0, 0, 0, 0]]

def sg21 : Grid := [[1, 2, 3, 4, 5, 6, 7, 8, 9],
 [4, 5, 6, 7, 8, 9, 1, 2, 3],
 [7, 8, 9, 0, 0, 0, 0, 0, 0],
 [0, 0, 0, 0, 0, 0, 0, 0, 0],
 [0, 0, 0, 0, 0, 0, 0, 0, 0],
 [0, 0, 0, 0, 0, 0, 0, 0, 0],
 [0, 0, 0, 0, 0, 0, 0, 0, 0],
 [0, 0, 0, 0, 0, 0, 0, 0, 0],
 [0, 0, 0, 0, 0, 0, 0, 0, 0]]

def sg22 : Grid := [[1, 2, 3, 4, 5, 6, 7, 8, 9],
 [4, 5, 6, 7, 8, 9, 1, 2, 3],
 [7, 8, 9, 1, 0, 0, 0, 0, 0],
 [0, 0, 0, 0, 0, 0, 0, 0, 0],
 [0, 0, 0, 0, 0, 0, 0, 0, 0],
 [0, 0, 0, 0, 0, 0, 0, 0, 0],
 [0, 0, 0, 0, 0, 0, 0, 0, 0],
 [0, 0, 0, 0, 0, 0, 0, 0, 0],
 [0, 0, 0, 0, 0, 0, 0, 0, 0]]

def sg23 : Grid := [[1, 2, 3, 4, 5, 6, 7, 8, 9],
 [4, 5, 6, 7, 8, 9, 1, 2, 3],
 [7, 8, 9, 1, 2, 0, 0, 0, 0],
 [0, 0, 0, 0, 0, 0, 0, 0, 0],
 [0, 0, 0, 0, 0, 0, 0, 0, 0],
 [0, 0, 0, 0, 0, 0, 0, 0, 0],
 [0, 0, 0, 0, 0, 0, 0, 0, 0],
 [0, 0, 0, 0, 0, 0, 0, 0, 0],
 [0, 0, 0, 0, 0, 0, 0, 0, 0]]

def sg24 : Grid := [[1, 2, 3, 4, 5, 6, 7, 8, 9],
 [4, 5, 6, 7, 8, 9, 1, 2, 3],
 [7, 8, 9, 1, 2, 3, 0, 0, 0],
 [0, 0, 0, 0, 0, 0, 0, 0, 0],
 [0, 0, 0, 0, 0, 0, 0, 0, 0],
 [0, 0, 0, 0, 0, 0, 0, 0, 0],
 [0, 0, 0, 0, 0, 0, 0, 0, 0],
 [0, 0, 0, 0, 0, 0, 0, 0, 0],
 [0, 0, 0, 0, 0, 0, 0, 0, 0]]

def sg25 : Grid := [[1, 2, 3, 4, 5, 6, 7, 8, 9],
 [4, 5, 6, 7, 8, 9, 1, 2, 3],
 [7, 8, 9, 1, 2, 3, 4, 0, 0],
 [0, 0, 0, 0, 0, 0, 0, 0, 0],
 [0, 0, 0, 0, 0, 0, 0, 0, 0],
 [0, 0, 0, 0, 0, 0, 0, 0, 0],
 [0, 0, 0, 0, 0, 0, 0, 0, 0],
 [0, 0, 0, 0, 0, 0, 0, 0, 0],
 [0, 0, 0, 0, 0, 0, 0, 0, 0]]

def sg26 : Grid := [[1, 2, 3, 4, 5, 6, 7, 8, 9],
 [4, 5, 6, 7, 8, 9, 1, 2, 3],
 [7, 8, 9, 1, 2, 3, 4, 5, 0],
 [0, 0, 0, 0, 0, 0, 0, 0, 0],
 [0, 0, 0, 0, 0, 0, 0, 0, 0],
 [0, 0, 0, 0, 0, 0, 0, 0, 0],
 [0, 0, 0, 0, 0, 0, 0, 0, 0],
 [0, 0, 0, 0, 0, 0, 0, 0, 0],
 [0, 0, 0, 0, 0, 0, 0, 0, 0]]

def sg27 : Grid := [[1, 2, 3, 4, 5, 6, 7, 8, 9],
 [4, 5, 6, 7, 8, 9, 1, 2, 3],
 [7, 8, 9, 1, 2, 3, 4, 5, 6],
 [0, 0, 0, 0, 0, 0, 0, 0, 0],
 [0, 0, 0, 0, 0, 0, 0, 0, 0],
 [0, 0, 0, 0, 0, 0, 0, 0, 0],
 [0, 0, 0, 0, 0, 0, 0, 0, 0],
 [0, 0, 0, 0, 0, 0, 0, 0, 0],
 [0, 0, 0, 0, 0, 0, 0, 0, 0]]

def sg28 : Grid := [[1, 2, 3, 4, 5, 6, 7, 8, 9],
 [4, 5, 6, 7, 8, 9, 1, 2, 3],
 [7, 8, 9, 1, 2, 3, 4, 5, 6],
 [2, 0, 0, 0, 0, 0, 0, 0, 0],
 [0, 0, 0, 0, 0, 0, 0, 0, 0],
 [0, 0, 0, 0, 0, 0, 0, 0, 0],
 [0, 0, 0, 0, 0, 0, 0, 0, 0],
 [0, 0, 0, 0, 0, 0, 0, 0, 0],
 [0, 0, 0, 0, 0, 0, 0, 0, 0]]

def sg29 : Grid := [[1, 2, 3, 4, 5, 6, 7, 8, 9],
 [4, 5, 6, 7, 8, 9, 1, 2, 3],
 [7, 8, 9, 1, 2, 3, 4, 5, 6],
 [2, 0, 1, 0, 0, 0, 0, 0, 0],
 [0, 0, 0, 0, 0, 0, 0, 0, 0],
 [0, 0, 0, 0, 0, 0, 0, 0, 0],
 [0, 0, 0, 0, 0, 0, 0, 0, 0],
 [0, 0, 0, 0, 0, 0, 0, 0, 0],
 [0, 0, 0, 0, 0, 0, 0, 0, 0]]

def sg30 : Grid := [[1, 2, 3, 4, 5, 6, 7, 8, 9],
 [4, 5, 6, 7, 8, 9, 1, 2, 3],
 [7, 8, 9, 1, 2, 3, 4, 5, 6],
 [2, 0, 1, 0, 0, 4, 0, 0, 0],
 [0, 0, 0, 0, 0, 0, 0, 0, 0],
 [0, 0, 0, 0, 0, 0, 0, 0, 0],
 [0, 0, 0, 0, 0, 0, 0, 0, 0],
 [0, 0, 0, 0, 0, 0, 0, 0, 0],
 [0, 0, 0, 0, 0, 0, 0, 0, 0]]

def sg31 : Grid := [[1, 2, 3, 4, 5, 6, 7, 8, 9],
 [4, 5, 6, 7, 8, 9, 1, 2, 3],
 [7, 8, 9, 1, 2, 3, 4, 5, 6],
 [2, 0, 1, 0, 0, 4, 0, 0, 5],
 [0, 0, 0, 0, 0, 0, 0, 0, 0],
 [0, 0, 0, 0, 0, 0, 0, 0, 0],
 [0, 0, 0, 0, 0, 0, 0, 0, 0],
 [0, 0, 0, 0, 0, 0, 0, 0, 0],
 [0, 0, 0, 0, 0, 0, 0, 0, 0]]

def sg32 : Grid := [[1, 2, 3, 4, 5, 6, 7, 8, 9],
 [4, 5, 6, 7, 8, 9, 1, 2, 3],
 [7, 8, 9, 1, 2, 3, 4, 5, 6],
 [2, 3, 1, 0, 0, 4, 0, 0, 5],
 [0, 0, 0, 0, 0, 0, 0, 0, 0],
 [0, 0, 0, 0, 0, 0, 0, 0, 0],
 [0, 0, 0, 0, 0, 0, 0, 0, 0],
 [0, 0, 0, 0, 0, 0, 0, 0, 0],
 [0, 0, 0, 0, 0, 0, 0, 0, 0]]

def sg33 : Grid := [[1, 2, 3, 4, 5, 6, 7, 8, 9],
 [4, 5, 6, 7, 8, 9, 1, 2, 3],
 [7, 8, 9, 1, 2, 3, 4, 5, 6],
 [2, 3, 1, 6, 0, 4, 0, 0, 5],
 [0, 0, 0, 0, 0, 0, 0, 0, 0],
 [0, 0, 0, 0, 0, 0, 0, 0, 0],
 [0, 0, 0, 0, 0, 0, 0, 0, 0],
 [0, 0, 0, 0, 0, 0, 0, 0, 0],
 [0, 0, 0, 0, 0, 0, 0, 0, 0]]

def sg34 : Grid := [[1, 2, 3, 4, 5, 6, 7, 8, 9],
 [4, 5, 6, 7, 8, 9, 1, 2, 3],
 [7, 8, 9, 1, 2, 3, 4, 5, 6],
 [2, 3, 1, 6, 7, 4, 0, 0, 5],
 [0, 0, 0, 0, 0, 0, 0, 0, 0],
 [0, 0, 0, 0, 0, 0, 0, 0, 0],
 [0, 0, 0, 0, 0, 0, 0, 0, 0],
 [0, 0, 0, 0, 0, 0, 0, 0, 0],
 [0, 0, 0, 0, 0, 0, 0, 0, 0]]

def sg35 : Grid := [[1, 2, 3, 4, 5, 6, 7, 8, 9],
 [4, 5, 6, 7, 8, 9, 1, 2, 3],
 [7, 8, 9, 1, 2, 3, 4, 5, 6],
 [2, 3, 1, 6, 7, 4, 0, 9, 5],
 [0, 0, 0, 0, 0, 0, 0, 0, 0],
 [0, 0, 0, 0, 0, 0, 0, 0, 0],
 [0, 0, 0, 0, 0, 0, 0, 0, 0],
 [0, 0, 0, 0, 0, 0, 0, 0, 0],
 [0, 0, 0, 0, 0, 0, 0, 0, 0]]

def sg36 : Grid := [[1, 2, 3, 4, 5, 6, 7, 8, 9],
 [4, 5, 6, 7, 8, 9, 1, 2, 3],
 [7, 8, 9, 1, 2, 3, 4, 5, 6],
 [2, 3, 1, 6, 7, 4, 8, 9, 5],
 [0, 0, 0, 0, 0, 0, 0, 0, 0],
 [0, 0, 0, 0, 0, 0, 0, 0, 0],
 [0, 0, 0, 0, 0, 0, 0, 0, 0],
 [0, 0, 0, 0, 0, 0, 0, 0, 0],
 [0, 0, 0, 0, 0, 0, 0, 0, 0]]

def sg37 : Grid := [[1, 2, 3, 4, 5, 6, 7, 8, 9],
 [4, 5, 6, 7, 8, 9, 1, 2, 3],
 [7, 8, 9, 1, 2, 3, 4, 5, 6],
 [2, 3, 1, 6, 7, 4, 8, 9, 5],
 [0, 0, 0, 0, 1, 0, 0, 0, 0],
 [0, 0, 0, 0, 0, 0, 0, 0, 0],
 [0, 0, 0, 0, 0, 0, 0, 0, 0],
 [0, 0, 0, 0, 0, 0, 0, 0, 0],
 [0, 0, 0, 0, 0, 0, 0, 0, 0]]

def sg38 : Grid := [[1, 2, 3, 4, 5, 6, 7, 8, 9],
 [4, 5, 6, 7, 8, 9, 1, 2, 3],
 [7, 8, 9, 1, 2, 3, 4, 5, 6],
 [2, 3, 1, 6, 7, 4, 8, 9, 5],
 [0, 0, 0, 0, 1, 0, 0, 0, 0],
 [0, 0, 0, 0, 3, 0, 0, 0, 0],
 [0, 0, 0, 0, 0, 0, 0, 0, 0],
 [0, 0, 0, 0, 0, 0, 0, 0, 0],
 [0, 0, 0, 0, 0, 0, 0, 0, 0]]

def sg39 : Grid := [[1, 2, 3, 4, 5, 6, 7, 8, 9],
 [4, 5, 6, 7, 8, 9, 1, 2, 3],
 [7, 8, 9, 1, 2, 3, 4, 5, 6],
 [2, 3, 1, 6, 7, 4, 8, 9, 5],
 [0, 0, 0, 0, 1, 0, 0, 0, 0],
 [0, 0, 0, 0, 3, 0, 2, 0, 0],
 [0, 0, 0, 0, 0, 0, 0, 0, 0],
 [0, 0, 0, 0, 0, 0, 0, 0, 0],
 [0, 0, 0, 0, 0, 0, 0, 0, 0]]

def sg40 : Grid := [[1, 2, 3, 4, 5, 6, 7, 8, 9],
 [4, 5, 6, 7, 8, 9, 1, 2, 3],
 [7, 8, 9, 1, 2, 3, 4, 5, 6],
 [2, 3, 1, 6, 7, 4, 8, 9, 5],
 [0, 0, 0, 0, 1, 0, 3, 0, 0],
 [0, 0, 0, 0, 3, 0, 2, 0, 0],
 [0, 0, 0, 0, 0, 0, 0, 0, 0],
 [0, 0, 0, 0, 0, 0, 0, 0, 0],
 [0, 0, 0, 0, 0, 0, 0, 0, 0]]

def sg41 : Grid := [[1, 2, 3, 4, 5, 6, 7, 8, 9],
 [4, 5, 6, 7, 8, 9, 1, 2, 3],
 [7, 8, 9, 1, 2, 3, 4, 5, 6],
 [2, 3, 1, 6, 7, 4, 8, 9, 5],
 [0, 0, 0, 0, 1, 0, 3, 0, 4],
 [0, 0, 0, 0, 3, 0, 2, 0, 0],
 [0, 0, 0, 0, 0, 0, 0, 0, 0],
 [0, 0, 0, 0, 0, 0, 0, 0, 0],
 [0, 0, 0, 0, 0, 0, 0, 0, 0]]

def sg42 : Grid := [[1, 2, 3, 4, 5, 6, 7, 8, 9],
 [4, 5, 6, 7, 8, 9, 1, 2, 3],
 [7, 8, 9, 1, 2, 3, 4, 5, 6],
 [2, 3, 1, 6, 7, 4, 8, 9, 5],
 [0, 0, 0, 0, 1, 0, 3, 6, 4],
 [0, 0, 0, 0, 3, 0, 2, 0, 0],
 [0, 0, 0, 0, 0, 0, 0, 0, 0],
 [0, 0, 0, 0, 0, 0, 0, 0, 0],
 [0, 0, 0, 0, 0, 0, 0, 0, 0]]

def sg43 : Grid := [[1, 2, 3, 4, 5, 6, 7, 8, 9],
 [4, 5, 6, 7, 8, 9, 1, 2, 3],
 [7, 8, 9, 1, 2, 3, 4, 5, 6],
 [2, 3, 1, 6, 7, 4, 8, 9, 5],
 [0, 7, 0, 0, 1, 0, 3, 6, 4],
 [0, 0, 0, 0, 3, 0, 2, 0, 0],
 [0, 0, 0, 0, 0, 0, 0, 0, 0],
 [0, 0, 0, 0, 0, 0, 0, 0, 0],
 [0, 0, 0, 0, 0, 0, 0, 0, 0]]

def sg44 : Grid := [[1, 2, 3, 4, 5, 6, 7, 8, 9],
 [4, 5, 6, 7, 8, 9, 1, 2, 3],
 [7, 8, 9, 1, 2, 3, 4, 5, 6],
 [2, 3, 1, 6, 7, 4, 8, 9, 5],
 [0, 7, 5, 0, 1, 0, 3, 6, 4],
 [0, 0, 0, 0, 3, 0, 2, 0, 0],
 [0, 0, 0, 0, 0, 0, 0, 0, 0],
 [0, 0, 0, 0, 0, 0, 0, 0, 0],
 [0, 0, 0, 0, 0, 0, 0, 0, 0]]

def sg45 : Grid := [[1, 2, 3, 4, 5, 6, 7, 8, 9],
 [4, 5, 6, 7, 8, 9, 1, 2, 3],
 [7, 8, 9, 1, 2, 3, 4, 5, 6],
 [2, 3, 1, 6, 7, 4, 8, 9, 5],
 [8, 7, 5, 0, 1, 0, 3, 6, 4],
 [0, 0, 0, 0, 3, 0, 2, 0, 0],
 [0, 0, 0, 0, 0, 0, 0, 0, 0],
 [0, 0, 0, 0, 0, 0, 0, 0, 0],
 [0, 0, 0, 0, 0, 0, 0, 0, 0]]

def sg46 : Grid := [[1, 2, 3, 4, 5, 6, 7, 8, 9],
 [4, 5, 6, 7, 8, 9, 1, 2, 3],
 [7, 8, 9, 1, 2, 3, 4, 5, 6],
 [2, 3, 1, 6, 7, 4, 8, 9, 5],
 [8, 7, 5, 0, 1, 2, 3, 6, 4],
 [0, 0, 0, 0, 3, 0, 2, 0, 0],
 [0, 0, 0, 0, 0, 0, 0, 0, 0],
 [0, 0, 0, 0, 0, 0, 0, 0, 0],
 [0, 0, 0, 0, 0, 0, 0, 0, 0]]

def sg47 : Grid := [[1, 2, 3, 4, 5, 6, 7, 8, 9],
 [4, 5, 6, 7, 8, 9, 1, 2, 3],
 [7, 8, 9, 1, 2, 3, 4, 5, 6],
 [2, 3, 1, 6, 7, 4, 8, 9, 5],
 [8, 7, 5, 9, 1, 2, 3, 6, 4],
 [0, 0, 0, 0, 3, 0, 2, 0, 0],
 [0, 0, 0, 0, 0, 0, 0, 0, 0],
 [0, 0, 0, 0, 0, 0, 0, 0, 0],
 [0, 0, 0, 0, 0, 0, 0, 0, 0]]

def sg48 : Grid := [[1, 2, 3, 4, 5, 6, 7, 8, 9],
 [4, 5, 6, 7, 8, 9, 1, 2, 3],
 [7, 8, 9, 1, 2, 3, 4, 5, 6],
 [2, 3, 1, 6, 7, 4, 8, 9, 5],
 [8, 7, 5, 9, 1, 2, 3, 6, 4],
 [0, 0, 4, 0, 3, 0, 2, 0, 0],
 [0, 0, 0, 0, 0, 0, 0, 0, 0],
 [0, 0, 0, 0, 0, 0, 0, 0, 0],
 [0, 0, 0, 0, 0, 0, 0, 0, 0]]

def sg49 : Grid := [[1, 2, 3, 4, 5, 6, 7, 8, 9],
 [4, 5, 6, 7, 8, 9, 1, 2, 3],
 [7, 8, 9, 1, 2, 3, 4, 5, 6],
 [2, 3, 1, 6, 7, 4, 8, 9, 5],
 [8, 7, 5, 9, 1, 2, 3, 6, 4],
 [6, 0, 4, 0, 3, 0, 2, 0, 0],
 [0, 0, 0, 0, 0, 0, 0, 0, 0],
 [0, 0, 0, 0, 0, 0, 0, 0, 0],
 [0, 0, 0, 0, 0, 0, 0, 0, 0]]

def sg50 : Grid := [[1, 2, 3, 4, 5, 6, 7, 8, 9],
 [4, 5, 6, 7, 8, 9, 1, 2, 3],
 [7, 8, 9, 1, 2, 3, 4, 5, 6],
 [2, 3, 1, 6, 7, 4, 8, 9, 5],
 [8, 7, 5, 9, 1, 2, 3, 6, 4],
 [6, 9, 4, 0, 3, 0, 2, 0, 0],
 [0, 0, 0, 0, 0, 0, 0, 0, 0],
 [0, 0, 0, 0, 0, 0, 0, 0, 0],
 [0, 0, 0, 0, 0, 0, 0, 0, 0]]

def sg51 : Grid := [[1, 2, 3, 4, 5, 6, 7, 8, 9],
 [4, 5, 6, 7, 8, 9, 1, 2, 3],
 [7, 8, 9, 1, 2, 3, 4, 5, 6],
 [2, 3, 1, 6, 7, 4, 8, 9, 5],
 [8, 7, 5, 9, 1, 2, 3, 6, 4],
 [6, 9, 4, 5, 3, 0, 2, 0, 0],
 [0, 0, 0, 0, 0, 0, 0, 0, 0],
 [0, 0, 0, 0, 0, 0, 0, 0, 0],
 [0, 0, 0, 0, 0, 0, 0, 0, 0]]

def sg52 : Grid := [[1, 2, 3, 4, 5, 6, 7, 8, 9],
 [4, 5, 6, 7, 8, 9, 1, 2, 3],
 [7, 8, 9, 1, 2, 3, 4, 5, 6],
 [2, 3, 1, 6, 7, 4, 8, 9, 5],
 [8, 7, 5, 9, 1, 2, 3, 6, 4],
 [6, 9, 4, 5, 3, 8, 2, 0, 0],
 [0, 0, 0, 0, 0, 0, 0, 0, 0],
 [0, 0, 0, 0, 0, 0, 0, 0, 0],
 [0, 0, 0, 0, 0, 0, 0, 0, 0]]

def sg53 : Grid := [[1, 2, 3, 4, 5, 6, 7, 8, 9],
 [4, 5, 6, 7, 8, 9, 1, 2, 3],
 [7, 8, 9, 1, 2, 3, 4, 5, 6],
 [2, 3, 1, 6, 7, 4, 8, 9, 5],
 [8, 7, 5, 9, 1, 2, 3, 6, 4],
 [6, 9, 4, 5, 3, 8, 2, 1, 0],
 [0, 0, 0, 0, 0, 0, 0, 0, 0],
 [0, 0, 0, 0, 0, 0, 0, 0, 0],
 [0, 0, 0, 0, 0, 0, 0, 0, 0]]

def sg54 : Grid := [[1, 2, 3, 4, 5, 6, 7, 8, 9],
 [4, 5, 6, 7, 8, 9, 1, 2, 3],
 [7, 8, 9, 1, 2, 3, 4, 5, 6],
 [2, 3, 1, 6, 7, 4, 8, 9, 5],
 [8, 7, 5, 9, 1, 2, 3, 6, 4],
 [6, 9, 4, 5, 3, 8, 2, 1, 7],
 [0, 0, 0, 0, 0, 0, 0, 0, 0],
 [0, 0, 0, 0, 0, 0, 0, 0, 0],
 [0, 0, 0, 0, 0, 0, 0, 0, 0]]

def sg55 : Grid := [[1, 2, 3, 4, 5, 6, 7, 8, 9],
 [4, 5, 6, 7, 8, 9, 1, 2, 3],
 [7, 8, 9, 1, 2, 3, 4, 5, 6],
 [2, 3, 1, 6, 7, 4, 8, 9, 5],
 [8, 7, 5, 9, 1, 2, 3, 6, 4],
 [6, 9, 4, 5, 3, 8, 2, 1, 7],
 [3, 0, 0, 0, 0, 0, 0, 0, 0],
 [0, 0, 0, 0, 0, 0, 0, 0, 0],
 [0, 0, 0, 0, 0, 0, 0, 0, 0]]

def sg56 : Grid := [[1, 2, 3, 4, 5, 6, 7, 8, 9],
 [4, 5, 6, 7, 8, 9, 1, 2, 3],
 [7, 8, 9, 1, 2, 3, 4, 5, 6],
 [2, 3, 1, 6, 7, 4, 8, 9, 5],
 [8, 7, 5, 9, 1, 2, 3, 6, 4],
 [6, 9, 4, 5, 3, 8, 2, 1, 7],
 [3, 0, 0, 2, 0, 0, 0, 0, 0],
 [0, 0, 0, 0, 0, 0, 0, 0, 0],
 [0, 0, 0, 0, 0, 0, 0, 0, 0]]

def sg57 : Grid := [[1, 2, 3, 4, 5, 6, 7, 8, 9],
 [4, 5, 6, 7, 8, 9, 1, 2, 3],
 [7, 8, 9, 1, 2, 3, 4, 5, 6],
 [2, 3, 1, 6, 7, 4, 8, 9, 5],
 [8, 7, 5, 9, 1, 2, 3, 6, 4],
 [6, 9, 4, 5, 3, 8, 2, 1, 7],
 [3, 0, 7, 2, 0, 0, 0, 0, 0],
 [0, 0, 0, 0, 0, 0, 0, 0, 0],
 [0, 0, 0, 0, 0, 0, 0, 0, 0]]

def sg58 : Grid := [[1, 2, 3, 4, 5, 6, 7, 8, 9],
 [4, 5, 6, 7, 8, 9, 1, 2, 3],
 [7, 8, 9, 1, 2, 3, 4, 5, 6],
 [2, 3, 1, 6, 7, 4, 8, 9, 5],
 [8, 7, 5, 9, 1, 2, 3, 6, 4],
 [6, 9, 4, 5, 3, 8, 2, 1, 7],
 [3, 0, 7, 2, 0, 0, 0, 4, 0],
 [0, 0, 0, 0, 0, 0, 0, 0, 0],
 [0, 0, 0, 0, 0, 0, 0, 0, 0]]

def sg59 : Grid := [[1, 2, 3, 4, 5, 6, 7, 8, 9],
 [4, 5, 6, 7, 8, 9, 1, 2, 3],
 [7, 8, 9, 1, 2, 3, 4, 5, 6],
 [2, 3, 1, 6, 7, 4, 8, 9, 5],
 [8, 7, 5, 9, 1, 2, 3, 6, 4],
 [6, 9, 4, 5, 3, 8, 2, 1, 7],
 [3, 1, 7, 2, 0, 0, 0, 4, 0],
 [0, 0, 0, 0, 0, 0, 0, 0, 0],
 [0, 0, 0, 0, 0, 0, 0, 0, 0]]

def sg60 : Grid := [[1, 2, 3, 4, 5, 6, 7, 8, 9],
 [4, 5, 6, 7, 8, 9, 1, 2, 3],
 [7, 8, 9, 1, 2, 3, 4, 5, 6],
 [2, 3, 1, 6, 7, 4, 8, 9, 5],
 [8, 7, 5, 9, 1, 2, 3, 6, 4],
 [6, 9, 4, 5, 3, 8, 2, 1, 7],
 [3, 1, 7, 2, 0, 5, 0, 4, 0],
 [0, 0, 0, 0, 0, 0, 0, 0, 0],
 [0, 0, 0, 0, 0, 0, 0, 0, 0]]

def sg61 : Grid := [[1, 2, 3, 4, 5, 6, 7, 8, 9],
 [4, 5, 6, 7, 8, 9, 1, 2, 3],
 [7, 8, 9, 1, 2, 3, 4, 5, 6],
 [2, 3, 1, 6, 7, 4, 8, 9, 5],
 [8, 7, 5, 9, 1, 2, 3, 6, 4],
 [6, 9, 4, 5, 3, 8, 2, 1, 7],
 [3, 1, 7, 2, 0, 5, 0, 4, 8],
 [0, 0, 0, 0, 0, 0, 0, 0, 0],
 [0, 0, 0, 0, 0, 0, 0, 0, 0]]

def sg62 : Grid := [[1, 2, 3, 4, 5, 6, 7, 8, 9],
 [4, 5, 6, 7, 8, 9, 1, 2, 3],
 [7, 8, 9, 1, 2, 3, 4, 5, 6],
 [2, 3, 1, 6, 7, 4, 8, 9, 5],
 [8, 7, 5, 9, 1, 2, 3, 6, 4],
 [6, 9, 4, 5, 3, 8, 2, 1, 7],
 [3, 1, 7, 2, 6, 5, 0, 4, 8],
 [0, 0, 0, 0, 0, 0, 0, 0, 0],
 [0, 0, 0, 0, 0, 0, 0, 0, 0]]

def sg63 : Grid := [[1, 2, 3, 4, 5, 6, 7, 8, 9],
 [4, 5, 6, 7, 8, 9, 1, 2, 3],
 [7, 8, 9, 1, 2, 3, 4, 5, 6],
 [2, 3, 1, 6, 7, 4, 8, 9, 5],
 [8, 7, 5, 9, 1, 2, 3, 6, 4],
 [6, 9, 4, 5, 3, 8, 2, 1, 7],
 [3, 1, 7, 2, 6, 5, 9, 4, 8],
 [0, 0, 0, 0, 0, 0, 0, 0, 0],
 [0, 0, 0, 0, 0, 0, 0, 0, 0]]

def sg64 : Grid := [[1, 2, 3, 4, 5, 6, 7, 8, 9],
 [4, 5, 6, 7, 8, 9, 1, 2, 3],
 [7, 8, 9, 1, 2, 3, 4, 5, 6],
 [2, 3, 1, 6, 7, 4, 8, 9, 5],
 [8, 7, 5, 9, 1, 2, 3, 6, 4],
 [6, 9, 4, 5, 3, 8, 2, 1, 7],
 [3, 1, 7, 2, 6, 5, 9, 4, 8],
 [5, 0, 0, 0, 0, 0, 0, 0, 0],
 [0, 0, 0, 0, 0, 0, 0, 0, 0]]

def sg65 : Grid := [[1, 2, 3, 4, 5, 6, 7, 8, 9],
 [4, 5, 6, 7, 8, 9, 1, 2, 3],
 [7, 8, 9, 1, 2, 3, 4, 5, 6],
 [2, 3, 1, 6, 7, 4, 8, 9, 5],
 [8, 7, 5, 9, 1, 2, 3, 6, 4],
 [6, 9, 4, 5, 3, 8, 2, 1, 7],
 [3, 1, 7, 2, 6, 5, 9, 4, 8],
 [5, 0, 0, 0, 0, 0, 6, 0, 0],
 [0, 0, 0, 0, 0, 0, 0, 0, 0]]

def sg66 : Grid := [[1, 2, 3, 4, 5, 6, 7, 8, 9],
 [4, 5, 6, 7, 8, 9, 1, 2, 3],
 [7, 8, 9, 1, 2, 3, 4, 5, 6],
 [2, 3, 1, 6, 7, 4, 8, 9, 5],
 [8, 7, 5, 9, 1, 2, 3, 6, 4],
 [6, 9, 4, 5, 3, 8, 2, 1, 7],
 [3, 1, 7, 2, 6, 5, 9, 4, 8],
 [5, 4, 0, 0, 0, 0, 6, 0, 0],
 [0, 0, 0, 0, 0, 0, 0, 0, 0]]

def sg67 : Grid := [[1, 2, 3, 4, 5, 6, 7, 8, 9],
 [4, 5, 6, 7, 8, 9, 1, 2, 3],
 [7, 8, 9, 1, 2, 3, 4, 5, 6],
 [2, 3, 1, 6, 7, 4, 8, 9, 5],
 [8, 7, 5, 9, 1, 2, 3, 6, 4],
 [6, 9, 4, 5, 3, 8, 2, 1, 7],
 [3, 1, 7, 2, 6, 5, 9, 4, 8],
 [5, 4, 0, 0, 9, 0, 6, 0, 0],
 [0, 0, 0, 0, 0, 0, 0, 0, 0]]

def sg68 : Grid := [[1, 2, 3, 4, 5, 6, 7, 8, 9],
 [4, 5, 6, 7, 8, 9, 1, 2, 3],
 [7, 8, 9, 1, 2, 3, 4, 5, 6],
 [2, 3, 1, 6, 7, 4, 8, 9, 5],
 [8, 7, 5, 9, 1, 2, 3, 6, 4],
 [6, 9, 4, 5, 3, 8, 2, 1, 7],
 [3, 1, 7, 2, 6, 5, 9, 4, 8],
 [5, 4, 0, 0, 9, 0, 6, 0, 0],
 [9, 0, 0, 0, 0, 0, 0, 0, 0]]

def sg69 : Grid := [[1, 2, 3, 4, 5, 6, 7, 8, 9],
 [4, 5, 6, 7, 8, 9, 1, 2, 3],
 [7, 8, 9, 1, 2, 3, 4, 5, 6],
 [2, 3, 1, 6, 7, 4, 8, 9, 5],
 [8, 7, 5, 9, 1, 2, 3, 6, 4],
 [6, 9, 4, 5, 3, 8, 2, 1, 7],
 [3, 1, 7, 2, 6, 5, 9, 4, 8],
 [5, 4, 0, 0, 9, 0, 6, 0, 0],
 [9, 6, 0, 0, 0, 0, 0, 0, 0]]

def sg70 : Grid := [[1, 2, 3, 4, 5, 6, 7, 8, 9],
 [4, 5, 6, 7, 8, 9, 1, 2, 3],
 [7, 8, 9, 1, 2, 3, 4, 5, 6],
 [2, 3, 1, 6, 7, 4, 8, 9, 5],
 [8, 7, 5, 9, 1, 2, 3, 6, 4],
 [6, 9, 4, 5, 3, 8, 2, 1, 7],
 [3, 1, 7, 2, 6, 5, 9, 4, 8],
 [5, 4, 0, 0, 9, 0, 6, 0, 0],
 [9, 6, 0, 0, 4, 0, 0, 0, 0]]

def sg71 : Grid := [[1, 2, 3, 4, 5, 6, 7, 8, 9],
 [4, 5, 6, 7, 8, 9, 1, 2, 3],
 [7, 8, 9, 1, 2, 3, 4, 5, 6],
 [2, 3, 1, 6, 7, 4, 8, 9, 5],
 [8, 7, 5, 9, 1, 2, 3, 6, 4],
 [6, 9, 4, 5, 3, 8, 2, 1, 7],
 [3, 1, 7, 2, 6, 5, 9, 4, 8],
 [5, 4, 0, 0, 9, 0, 6, 0, 0],
 [9, 6, 0, 0, 4, 0, 5, 0, 0]]

def sg72 : Grid := [[1, 2, 3, 4, 5, 6, 7, 8, 9],
 [4, 5, 6, 7, 8, 9, 1, 2, 3],
 [7, 8, 9, 1, 2, 3, 4, 5, 6],
 [2, 3, 1, 6, 7, 4, 8, 9, 5],
 [8, 7, 5, 9, 1, 2, 3, 6, 4],
 [6, 9, 4, 5, 3, 8, 2, 1, 7],
 [3, 1, 7, 2, 6, 5, 9, 4, 8],
 [5, 4, 2, 0, 9, 0, 6, 0, 0],
 [9, 6, 0, 0, 4, 0, 5, 0, 0]]

def sg73 : Grid := [[1, 2, 3, 4, 5, 6, 7, 8, 9],
 [4, 5, 6, 7, 8, 9, 1, 2, 3],
 [7, 8, 9, 1, 2, 3, 4, 5, 6],
 [2, 3, 1, 6, 7, 4, 8, 9, 5],
 [8, 7, 5, 9, 1, 2, 3, 6, 4],
 [6, 9, 4, 5, 3, 8, 2, 1, 7],
 [3, 1, 7, 2, 6, 5, 9, 4, 8],
 [5, 4, 2, 0, 9, 0, 6, 0, 1],
 [9, 6, 0, 0, 4, 0, 5, 0, 0]]

def sg74 : Grid := [[1, 2, 3, 4, 5, 6, 7, 8, 9],
 [4, 5, 6, 7, 8, 9, 1, 2, 3],
 [7, 8, 9, 1, 2, 3, 4, 5, 6],
 [2, 3, 1, 6, 7, 4, 8, 9, 5],
 [8, 7, 5, 9, 1, 2, 3, 6, 4],
 [6, 9, 4, 5, 3, 8, 2, 1, 7],
 [3, 1, 7, 2, 6, 5, 9, 4, 8],
 [5, 4, 2, 0, 9, 7, 6, 0, 1],
 [9, 6, 0, 0, 4, 0, 5, 0, 0]]

def sg75 : Grid := [[1, 2, 3, 4, 5, 6, 7, 8, 9],
 [4, 5, 6, 7, 8, 9, 1, 2, 3],
 [7, 8, 9, 1, 2, 3, 4, 5, 6],
 [2, 3, 1, 6, 7, 4, 8, 9, 5],
 [8, 7, 5, 9, 1, 2, 3, 6, 4],
 [6, 9, 4, 5, 3, 8, 2, 1, 7],
 [3, 1, 7, 2, 6, 5, 9, 4, 8],
 [5, 4, 2, 0, 9, 7, 6, 3, 1],
 [9, 6, 0, 0, 4, 0, 5, 0, 0]]

def sg76 : Grid := [[1, 2, 3, 4, 5, 6, 7, 8, 9],
 [4, 5, 6, 7, 8, 9, 1, 2, 3],
 [7, 8, 9, 1, 2, 3, 4, 5, 6],
 [2, 3, 1, 6, 7, 4, 8, 9, 5],
 [8, 7, 5, 9, 1, 2, 3, 6, 4],
 [6, 9, 4, 5, 3, 8, 2, 1, 7],
 [3, 1, 7, 2, 6, 5, 9, 4, 8],
 [5, 4, 2, 8, 9, 7, 6, 3, 1],
 [9, 6, 0, 0, 4, 0, 5, 0, 0]]

def sg77 : Grid := [[1, 2, 3, 4, 5, 6, 7, 8, 9],
 [4, 5, 6, 7, 8, 9, 1, 2, 3],
 [7, 8, 9, 1, 2, 3, 4, 5, 6],
 [2, 3, 1, 6, 7, 4, 8, 9, 5],
 [8, 7, 5, 9, 1, 2, 3, 6, 4],
 [6, 9, 4, 5, 3, 8, 2, 1, 7],
 [3, 1, 7, 2, 6, 5, 9, 4, 8],
 [5, 4, 2, 8, 9, 7, 6, 3, 1],
 [9, 6, 8, 0, 4, 0, 5, 0, 0]]

def sg78 : Grid := [[1, 2, 3, 4, 5, 6, 7, 8, 9],
 [4, 5, 6, 7, 8, 9, 1, 2, 3],
 [7, 8, 9, 1, 2, 3, 4, 5, 6],
 [2, 3, 1, 6, 7, 4, 8, 9, 5],
 [8, 7, 5, 9, 1, 2, 3, 6, 4],
 [6, 9, 4, 5, 3, 8, 2, 1, 7],
 [3, 1, 7, 2, 6, 5, 9, 4, 8],
 [5, 4, 2, 8, 9, 7, 6, 3, 1],
 [9, 6, 8, 3, 4, 0, 5, 0, 0]]

def sg79 : Grid := [[1, 2, 3, 4, 5, 6, 7, 8, 9],
 [4, 5, 6, 7, 8, 9, 1, 2, 3],
 [7, 8, 9, 1, 2, 3, 4, 5, 6],
 [2, 3, 1, 6, 7, 4, 8, 9, 5],
 [8, 7, 5, 9, 1, 2, 3, 6, 4],
 [6, 9, 4, 5, 3, 8, 2, 1, 7],
 [3, 1, 7, 2, 6, 5, 9, 4, 8],
 [5, 4, 2, 8, 9, 7, 6, 3, 1],
 [9, 6, 8, 3, 4, 1, 5, 0, 0]]

def sg80 : Grid := [[1, 2, 3, 4, 5, 6, 7, 8, 9],
 [4, 5, 6, 7, 8, 9, 1, 2, 3],
 [7, 8, 9, 1, 2, 3, 4, 5, 6],
 [2, 3, 1, 6, 7, 4, 8, 9, 5],
 [8, 7, 5, 9, 1, 2, 3, 6, 4],
 [6, 9, 4, 5, 3, 8, 2, 1, 7],
 [3, 1, 7, 2, 6, 5, 9, 4, 8],
 [5, 4, 2, 8, 9, 7, 6, 3, 1],
 [9, 6, 8, 3, 4, 1, 5, 7, 0]]

end Sudoku

namespace RefModel

/-!
A minimal reference-semantics model for the aliasing behaviour of
`Board.get_row` and `Board.get_col` (lines 139-155).  Python lists are heap
objects; `self.grid` is a list of references to nine row objects.  We model
the heap as a list of list objects indexed by address, and the board's `grid`
field as the list of the nine row addresses.  `get_row` executes
`return self.grid[row]`, handing the caller the row object itself (an
address); `get_col` executes a list comprehension, which allocates a fresh
object.  Mutating a returned list is a heap write at its address.
-/

/-- The list object stored at address `a`. -/
def deref (heap : List (List Nat)) (a : Nat) : List Nat := heap.getD a []

/-- The matrix the board presents: its row addresses dereferenced. -/
def observed_grid (heap : List (List Nat)) (rows : List Nat) : List (List Nat) :=
  rows.map (deref heap)

/-- `get_row` (line 146): `return self.grid[row]` returns the row object
itself, i.e. the address stored in the grid. -/
def get_row_ref (rows : List Nat) (row : Nat) : Nat := rows.getD row 0

/-- `get_col` (line 155): the comprehension
`[self.grid[i][col] for i in range(BOARD_SIZE)]` allocates a fresh list
object; returns the extended heap and the fresh address. -/
def get_col_ref (heap : List (List Nat)) (rows : List Nat) (col : Nat) :
    List (List Nat) × Nat :=
  (heap ++ [(List.range 9).map (fun i => (deref heap (rows.getD i 0)).getD col 0)],
   heap.length)

/-- Caller-side mutation `lst[k] = v` of the list object at address `a`. -/
def write_elem (heap : List (List Nat)) (a k v : Nat) : List (List Nat) :=
  heap.set a ((deref heap a).set k v)

/-- A concrete board heap: the nine rows of a puzzle live at addresses 0-8. -/
def heap0 : List (List Nat) := Sudoku.solved_base

/-- The board's `grid` field for `heap0`: row `i` is the object at address `i`. -/
def rows0 : List Nat := [0, 1, 2, 3, 4, 5, 6, 7, 8]

end RefModel

namespace Sudoku

/-- One backtrack-free step of `solveFuel`: if the MRV cell of `g` is (r, c),
its first candidate is `v`, and solving after placing `v` succeeds with final
grid `gf`, then solving `g` succeeds with `gf`. -/
theorem solve_step (n : Nat) (g : Grid) (r c v : Nat) (rest : List Nat) (gn gf : Grid)
    (h1 : get_min_remaining_values_cell g = some (r, c))
    (h2 : get_valid_numbers g r c = v :: rest)
    (h3 : setCell g r c v = gn)
    (h4 : solveFuel n gn = some (true, gf)) :
    solveFuel (n + 1) g = some (true, gf) := by
  simp only [solveFuel, h1, h2, tryNums, h3, h4]

theorem sstep81 : solveFuel 1 solved_base = some (true, solved_base) := by decide

theorem sstep80 : solveFuel 2 sg80 = some (true, solved_base) :=
  solve_step 1 sg80 8 8 2 [] solved_base solved_base (by decide) (by decide) (by decide) sstep81

theorem sstep79 : solveFuel 3 sg79 = some (true, solved_base) :=
  solve_step 2 sg79 8 7 7 [] sg80 solved_base (by decide) (by decide) (by decide) sstep80

theorem sstep78 : solveFuel 4 sg78 = some (true, solved_base) :=
  solve_step 3 sg78 8 5 1 [] sg79 solved_base (by decide) (by decide) (by decide) sstep79

theorem sstep77 : solveFuel 5 sg77 = some (true, solved_base) :=
  solve_step 4 sg77 8 3 3 [] sg78 solved_base (by decide) (by decide) (by decide) sstep78

theorem sstep76 : solveFuel 6 sg76 = some (true, solved_base) :=
  solve_step 5 sg76 8 2 8 [] sg77 solved_base (by decide) (by decide) (by decide) sstep77

theorem sstep75 : solveFuel 7 sg75 = some (true, solved_base) :=
  solve_step 6 sg75 7 3 8 [] sg76 solved_base (by decide) (by decide) (by decide) sstep76

theorem sstep74 : solveFuel 8 sg74 = some (true, solved_base) :=
  solve_step 7 sg74 7 7 3 [] sg75 solved_base (by decide) (by decide) (by decide) sstep75

theorem sstep73 : solveFuel 9 sg73 = some (true, solved_base) :=
  solve_step 8 sg73 7 5 7 [] sg74 solved_base (by decide) (by decide) (by decide) sstep74

theorem sstep72 : solveFuel 10 sg72 = some (true, solved_base) :=
  solve_step 9 sg72 7 8 1 [] sg73 solved_base (by decide) (by decide) (by decide) sstep73

theorem sstep71 : solveFuel 11 sg71 = some (true, solved_base) :=
  solve_step 10 sg71 7 2 2 [8] sg72 solved_base (by decide) (by decide) (by decide) sstep72

theorem sstep70 : solveFuel 12 sg70 = some (true, solved_base) :=
  solve_step 11 sg70 8 6 5 [] sg71 solved_base (by decide) (by decide) (by decide) sstep71

theorem sstep69 : solveFuel 13 sg69 = some (true, solved_base) :=
  solve_step 12 sg69 8 4 4 [] sg70 solved_base (by decide) (by decide) (by decide) sstep70

theorem sstep68 : solveFuel 14 sg68 = some (true, solved_base) :=
  solve_step 13 sg68 8 1 6 [] sg69 solved_base (by decide) (by decide) (by decide) sstep69

theorem sstep67 : solveFuel 15 sg67 = some (true, solved_base) :=
  solve_step 14 sg67 8 0 9 [] sg68 solved_base (by decide) (by decide) (by decide) sstep68

theorem sstep66 : solveFuel 16 sg66 = some (true, solved_base) :=
  solve_step 15 sg66 7 4 9 [] sg67 solved_base (by decide) (by decide) (by decide) sstep67

theorem sstep65 : solveFuel 17 sg65 = some (true, solved_base) :=
  solve_step 16 sg65 7 1 4 [] sg66 solved_base (by decide) (by decide) (by decide) sstep66

theorem sstep64 : solveFuel 18 sg64 = some (true, solved_base) :=
  solve_step 17 sg64 7 6 6 [] sg65 solved_base (by decide) (by decide) (by decide) sstep65

theorem sstep63 : solveFuel 19 sg63 = some (true, solved_base) :=
  solve_step 18 sg63 7 0 5 [9] sg64 solved_base (by decide) (by decide) (by decide) sstep64

theorem sstep62 : solveFuel 20 sg62 = some (true, solved_base) :=
  solve_step 19 sg62 6 6 9 [] sg63 solved_base (by decide) (by decide) (by decide) sstep63

theorem sstep61 : solveFuel 21 sg61 = some (true, solved_base) :=
  solve_step 20 sg61 6 4 6 [9] sg62 solved_base (by decide) (by decide) (by decide) sstep62

theorem sstep60 : solveFuel 22 sg60 = some (true, solved_base) :=
  solve_step 21 sg60 6 8 8 [] sg61 solved_base (by decide) (by decide) (by decide) sstep61

theorem sstep59 : solveFuel 23 sg59 = some (true, solved_base) :=
  solve_step 22 sg59 6 5 5 [] sg60 solved_base (by decide) (by decide) (by decide) sstep60

theorem sstep58 : solveFuel 24 sg58 = some (true, solved_base) :=
  solve_step 23 sg58 6 1 1 [6] sg59 solved_base (by decide) (by decide) (by decide) sstep59

theorem sstep57 : solveFuel 25 sg57 = some (true, solved_base) :=
  solve_step 24 sg57 6 7 4 [] sg58 solved_base (by decide) (by decide) (by decide) sstep58

theorem sstep56 : solveFuel 26 sg56 = some (true, solved_base) :=
  solve_step 25 sg56 6 2 7 [8] sg57 solved_base (by decide) (by decide) (by decide) sstep57

theorem sstep55 : solveFuel 27 sg55 = some (true, solved_base) :=
  solve_step 26 sg55 6 3 2 [8] sg56 solved_base (by decide) (by decide) (by decide) sstep56

theorem sstep54 : solveFuel 28 sg54 = some (true, solved_base) :=
  solve_step 27 sg54 6 0 3 [5, 9] sg55 solved_base (by decide) (by decide) (by decide) sstep55

theorem sstep53 : solveFuel 29 sg53 = some (true, solved_base) :=
  solve_step 28 sg53 5 8 7 [] sg54 solved_base (by decide) (by decide) (by decide) sstep54

theorem sstep52 : solveFuel 30 sg52 = some (true, solved_base) :=
  solve_step 29 sg52 5 7 1 [7] sg53 solved_base (by decide) (by decide) (by decide) sstep53

theorem sstep51 : solveFuel 31 sg51 = some (true, solved_base) :=
  solve_step 30 sg51 5 5 8 [] sg52 solved_base (by decide) (by decide) (by decide) sstep52

theorem sstep50 : solveFuel 32 sg50 = some (true, solved_base) :=
  solve_step 31 sg50 5 3 5 [8] sg51 solved_base (by decide) (by decide) (by decide) sstep51

theorem sstep49 : solveFuel 33 sg49 = some (true, solved_base) :=
  solve_step 32 sg49 5 1 9 [] sg50 solved_base (by decide) (by decide) (by decide) sstep50

theorem sstep48 : solveFuel 34 sg48 = some (true, solved_base) :=
  solve_step 33 sg48 5 0 6 [9] sg49 solved_base (by decide) (by decide) (by decide) sstep49

theorem sstep47 : solveFuel 35 sg47 = some (true, solved_base) :=
  solve_step 34 sg47 5 2 4 [] sg48 solved_base (by decide) (by decide) (by decide) sstep48

theorem sstep46 : solveFuel 36 sg46 = some (true, solved_base) :=
  solve_step 35 sg46 4 3 9 [] sg47 solved_base (by decide) (by decide) (by decide) sstep47

theorem sstep45 : solveFuel 37 sg45 = some (true, solved_base) :=
  solve_step 36 sg45 4 5 2 [] sg46 solved_base (by decide) (by decide) (by decide) sstep46

theorem sstep44 : solveFuel 38 sg44 = some (true, solved_base) :=
  solve_step 37 sg44 4 0 8 [9] sg45 solved_base (by decide) (by decide) (by decide) sstep45

theorem sstep43 : solveFuel 39 sg43 = some (true, solved_base) :=
  solve_step 38 sg43 4 2 5 [8] sg44 solved_base (by decide) (by decide) (by decide) sstep44

theorem sstep42 : solveFuel 40 sg42 = some (true, solved_base) :=
  solve_step 39 sg42 4 1 7 [9] sg43 solved_base (by decide) (by decide) (by decide) sstep43

theorem sstep41 : solveFuel 41 sg41 = some (true, solved_base) :=
  solve_step 40 sg41 4 7 6 [7] sg42 solved_base (by decide) (by decide) (by decide) sstep42

theorem sstep40 : solveFuel 42 sg40 = some (true, solved_base) :=
  solve_step 41 sg40 4 8 4 [7] sg41 solved_base (by decide) (by decide) (by decide) sstep41

theorem sstep39 : solveFuel 43 sg39 = some (true, solved_base) :=
  solve_step 42 sg39 4 6 3 [6] sg40 solved_base (by decide) (by decide) (by decide) sstep40

theorem sstep38 : solveFuel 44 sg38 = some (true, solved_base) :=
  solve_step 43 sg38 5 6 2 [6] sg39 solved_base (by decide) (by decide) (by decide) sstep39

theorem sstep37 : solveFuel 45 sg37 = some (true, solved_base) :=
  solve_step 44 sg37 5 4 3 [9] sg38 solved_base (by decide) (by decide) (by decide) sstep38

theorem sstep36 : solveFuel 46 sg36 = some (true, solved_base) :=
  solve_step 45 sg36 4 4 1 [3, 9] sg37 solved_base (by decide) (by decide) (by decide) sstep37

theorem sstep35 : solveFuel 47 sg35 = some (true, solved_base) :=
  solve_step 46 sg35 3 6 8 [] sg36 solved_base (by decide) (by decide) (by decide) sstep36

theorem sstep34 : solveFuel 48 sg34 = some (true, solved_base) :=
  solve_step 47 sg34 3 7 9 [] sg35 solved_base (by decide) (by decide) (by decide) sstep35

theorem sstep33 : solveFuel 49 sg33 = some (true, solved_base) :=
  solve_step 48 sg33 3 4 7 [9] sg34 solved_base (by decide) (by decide) (by decide) sstep34

theorem sstep32 : solveFuel 50 sg32 = some (true, solved_base) :=
  solve_step 49 sg32 3 3 6 [8, 9] sg33 solved_base (by decide) (by decide) (by decide) sstep33

theorem sstep31 : solveFuel 51 sg31 = some (true, solved_base) :=
  solve_step 50 sg31 3 1 3 [6, 7, 9] sg32 solved_base (by decide) (by decide) (by decide) sstep32

theorem sstep30 : solveFuel 52 sg30 = some (true, solved_base) :=
  solve_step 51 sg30 3 8 5 [7, 8] sg31 solved_base (by decide) (by decide) (by decide) sstep31

theorem sstep29 : solveFuel 53 sg29 = some (true, solved_base) :=
  solve_step 52 sg29 3 5 4 [5, 7, 8] sg30 solved_base (by decide) (by decide) (by decide) sstep30

theorem sstep28 : solveFuel 54 sg28 = some (true, solved_base) :=
  solve_step 53 sg28 3 2 1 [4, 5, 7, 8] sg29 solved_base (by decide) (by decide) (by decide) sstep29

theorem sstep27 : solveFuel 55 sg27 = some (true, solved_base) :=
  solve_step 54 sg27 3 0 2 [3, 5, 6, 8, 9] sg28 solved_base (by decide) (by decide) (by decide) sstep28

theorem sstep26 : solveFuel 56 sg26 = some (true, solved_base) :=
  solve_step 55 sg26 2 8 6 [] sg27 solved_base (by decide) (by decide) (by decide) sstep27

theorem sstep25 : solveFuel 57 sg25 = some (true, solved_base) :=
  solve_step 56 sg25 2 7 5 [6] sg26 solved_base (by decide) (by decide) (by decide) sstep26

theorem sstep24 : solveFuel 58 sg24 = some (true, solved_base) :=
  solve_step 57 sg24 2 6 4 [5, 6] sg25 solved_base (by decide) (by decide) (by decide) sstep25

theorem sstep23 : solveFuel 59 sg23 = some (true, solved_base) :=
  solve_step 58 sg23 2 5 3 [] sg24 solved_base (by decide) (by decide) (by decide) sstep24

theorem sstep22 : solveFuel 60 sg22 = some (true, solved_base) :=
  solve_step 59 sg22 2 4 2 [3] sg23 solved_base (by decide) (by decide) (by decide) sstep23

theorem sstep21 : solveFuel 61 sg21 = some (true, solved_base) :=
  solve_step 60 sg21 2 3 1 [2, 3] sg22 solved_base (by decide) (by decide) (by decide) sstep22

theorem sstep20 : solveFuel 62 sg20 = some (true, solved_base) :=
  solve_step 61 sg20 2 2 9 [] sg21 solved_base (by decide) (by decide) (by decide) sstep21

theorem sstep19 : solveFuel 63 sg19 = some (true, solved_base) :=
  solve_step 62 sg19 2 1 8 [9] sg20 solved_base (by decide) (by decide) (by decide) sstep20

theorem sstep18 : solveFuel 64 sg18 = some (true, solved_base) :=
  solve_step 63 sg18 2 0 7 [8, 9] sg19 solved_base (by decide) (by decide) (by decide) sstep19

theorem sstep17 : solveFuel 65 sg17 = some (true, solved_base) :=
  solve_step 64 sg17 1 5 9 [] sg18 solved_base (by decide) (by decide) (by decide) sstep18

theorem sstep16 : solveFuel 66 sg16 = some (true, solved_base) :=
  solve_step 65 sg16 1 4 8 [9] sg17 solved_base (by decide) (by decide) (by decide) sstep17

theorem sstep15 : solveFuel 67 sg15 = some (true, solved_base) :=
  solve_step 66 sg15 1 3 7 [8, 9] sg16 solved_base (by decide) (by decide) (by decide) sstep16

theorem sstep14 : solveFuel 68 sg14 = some (true, solved_base) :=
  solve_step 67 sg14 1 8 3 [] sg15 solved_base (by decide) (by decide) (by decide) sstep15

theorem sstep13 : solveFuel 69 sg13 = some (true, solved_base) :=
  solve_step 68 sg13 1 7 2 [3] sg14 solved_base (by decide) (by decide) (by decide) sstep14

theorem sstep12 : solveFuel 70 sg12 = some (true, solved_base) :=
  solve_step 69 sg12 1 6 1 [2, 3] sg13 solved_base (by decide) (by decide) (by decide) sstep13

theorem sstep11 : solveFuel 71 sg11 = some (true, solved_base) :=
  solve_step 70 sg11 1 2 6 [7, 8, 9] sg12 solved_base (by decide) (by decide) (by decide) sstep12

theorem sstep10 : solveFuel 72 sg10 = some (true, solved_base) :=
  solve_step 71 sg10 1 1 5 [6, 7, 8, 9] sg11 solved_base (by decide) (by decide) (by decide) sstep11

theorem sstep9 : solveFuel 73 sg9 = some (true, solved_base) :=
  solve_step 72 sg9 1 0 4 [5, 6, 7, 8, 9] sg10 solved_base (by decide) (by decide) (by decide) sstep10

theorem sstep8 : solveFuel 74 sg8 = some (true, solved_base) :=
  solve_step 73 sg8 0 8 9 [] sg9 solved_base (by decide) (by decide) (by decide) sstep9

theorem sstep7 : solveFuel 75 sg7 = some (true, solved_base) :=
  solve_step 74 sg7 0 7 8 [9] sg8 solved_base (by decide) (by decide) (by decide) sstep8

theorem sstep6 : solveFuel 76 sg6 = some (true, solved_base) :=
  solve_step 75 sg6 0 6 7 [8, 9] sg7 solved_base (by decide) (by decide) (by decide) sstep7

theorem sstep5 : solveFuel 77 sg5 = some (true, solved_base) :=
  solve_step 76 sg5 0 5 6 [7, 8, 9] sg6 solved_base (by decide) (by decide) (by decide) sstep6

theorem sstep4 : solveFuel 78 sg4 = some (true, solved_base) :=
  solve_step 77 sg4 0 4 5 [6, 7, 8, 9] sg5 solved_base (by decide) (by decide) (by decide) sstep5

theorem sstep3 : solveFuel 79 sg3 = some (true, solved_base) :=
  solve_step 78 sg3 0 3 4 [5, 6, 7, 8, 9] sg4 solved_base (by decide) (by decide) (by decide) sstep4

theorem sstep2 : solveFuel 80 sg2 = some (true, solved_base) :=
  solve_step 79 sg2 0 2 3 [4, 5, 6, 7, 8, 9] sg3 solved_base (by decide) (by decide) (by decide) sstep3

theorem sstep1 : solveFuel 81 sg1 = some (true, solved_base) :=
  solve_step 80 sg1 0 1 2 [3, 4, 5, 6, 7, 8, 9] sg2 solved_base (by decide) (by decide) (by decide) sstep2

theorem sstep0 : solveFuel 82 sg0 = some (true, solved_base) :=
  solve_step 81 sg0 0 0 1 [2, 3, 4, 5, 6, 7, 8, 9] sg1 solved_base (by decide) (by decide) (by decide) sstep1

/-- `Board.solve` on the empty grid returns True and fills the grid to
`solved_base`. -/
theorem solve_empty_eval : Board.solve empty_grid = (true, solved_base) := by
  have h : empty_grid = sg0 := by decide
  rw [Board.solve, h, sstep0]
  rfl

end Sudoku


namespace Sudoku

/-! ### Cell access and update lemmas -/

theorem list_set_getD_self (l : List α) (i : Nat) (d : α) : l.set i (l.getD i d) = l := by
  induction l generalizing i with
  | nil => rfl
  | cons a t ih =>
    cases i with
    | zero => rfl
    | succ n => simp only [List.set_cons_succ, List.getD_cons_succ, ih]

theorem getCell_setCell_ne (g : Grid) (r c v i j : Nat) (h : i ≠ r ∨ j ≠ c) :
    getCell (setCell g r c v) i j = getCell g i j := by
  simp only [getCell, setCell, List.getD_eq_getElem?_getD]
  by_cases hir : i = r
  · subst hir
    have hjc : j ≠ c := h.resolve_left (fun hh => hh rfl)
    by_cases hlen : i < g.length
    · rw [List.getElem?_set_self hlen, Option.getD_some,
        List.getElem?_set_ne (fun hh => hjc hh.symm)]
    · rw [List.set_eq_of_length_le (Nat.le_of_not_lt hlen)]
  · rw [List.getElem?_set_ne (fun hh => hir hh.symm)]

theorem getCell_setCell_self (g : Grid) (r c v : Nat)
    (hr : r < g.length) (hc : c < (g.getD r []).length) :
    getCell (setCell g r c v) r c = v := by
  simp only [List.getD_eq_getElem?_getD] at hc
  simp only [getCell, setCell, List.getD_eq_getElem?_getD]
  rw [List.getElem?_set_self hr, Option.getD_some, List.getElem?_set_self hc, Option.getD_some]

theorem getCell_setCell_zero (g : Grid) (r c : Nat) :
    getCell (setCell g r c 0) r c = 0 := by
  by_cases hr : r < g.length
  · by_cases hc : c < (g.getD r []).length
    · exact getCell_setCell_self g r c 0 hr hc
    · rw [setCell, List.set_eq_of_length_le (Nat.le_of_not_lt hc), list_set_getD_self, getCell,
        List.getD_eq_getElem?_getD, List.getD_eq_getElem?_getD,
        List.getElem?_eq_none (Nat.le_of_not_lt (by simpa [List.getD_eq_getElem?_getD] using hc))]
      rfl
  · rw [setCell, List.set_eq_of_length_le (Nat.le_of_not_lt hr)]
    simp only [getCell, List.getD_eq_getElem?_getD]
    rw [List.getElem?_eq_none (Nat.le_of_not_lt hr)]
    rfl

theorem setCell_self (g : Grid) (r c : Nat) (h : getCell g r c = 0) :
    setCell g r c 0 = g := by
  rw [getCell] at h
  rw [setCell, ← h, list_set_getD_self, list_set_getD_self]

theorem setCell_setCell (g : Grid) (r c a b : Nat) :
    setCell (setCell g r c a) r c b = setCell g r c b := by
  by_cases hr : r < g.length
  · simp only [setCell, List.getD_eq_getElem?_getD]
    rw [List.getElem?_set_self hr, Option.getD_some, List.set_set, List.set_set]
  · have h1 : setCell g r c a = g := by
      rw [setCell, List.set_eq_of_length_le (Nat.le_of_not_lt hr)]
    rw [h1]

theorem WF9_setCell (g : Grid) (r c v : Nat) (h : WF9 g) : WF9 (setCell g r c v) := by
  obtain ⟨hlen, hrows⟩ := h
  by_cases hr : r < g.length
  · refine ⟨by simpa [setCell] using hlen, ?_⟩
    intro row hrow
    rcases List.mem_or_eq_of_mem_set hrow with hmem | heq
    · exact hrows row hmem
    · subst heq
      rw [List.length_set]
      apply hrows
      rw [List.getD_eq_getElem?_getD, List.getElem?_eq_getElem hr, Option.getD_some]
      exact List.getElem_mem hr
  · rw [setCell, List.set_eq_of_length_le (Nat.le_of_not_lt hr)]
    exact ⟨hlen, hrows⟩

theorem row_length (g : Grid) (r : Nat) (hWF : WF9 g) (hr : r < 9) :
    (g.getD r []).length = 9 := by
  obtain ⟨hlen, hrows⟩ := hWF
  have hr' : r < g.length := by omega
  rw [List.getD_eq_getElem?_getD, List.getElem?_eq_getElem hr', Option.getD_some]
  exact hrows _ (List.getElem_mem hr')

/-! ### Empty-cell enumeration -/

theorem mem_get_empty_cells (g : Grid) (i j : Nat) :
    (i, j) ∈ get_empty_cells g ↔ i < 9 ∧ j < 9 ∧ getCell g i j = 0 := by
  rw [get_empty_cells]
  simp only [List.mem_flatMap, List.mem_filterMap, List.mem_range]
  constructor
  · rintro ⟨a, ha, b, hb, hab⟩
    by_cases h0 : getCell g a b = 0
    · rw [if_pos h0] at hab
      obtain ⟨rfl, rfl⟩ := Prod.mk.injEq .. ▸ Option.some.inj hab
      exact ⟨ha, hb, h0⟩
    · rw [if_neg h0] at hab
      cases hab
  · rintro ⟨hi, hj, h0⟩
    exact ⟨i, hi, j, hj, by rw [if_pos h0]⟩

/-! ### `is_solved` is always false -/

theorem is_solved_false (g : Grid) : is_solved g = false := by
  rw [is_solved]
  by_cases h0 : getCell g 0 0 = 0
  · have hmem : (0, 0) ∈ get_empty_cells g :=
      (mem_get_empty_cells g 0 0).2 ⟨by omega, by omega, h0⟩
    have hne : (get_empty_cells g).isEmpty = false := by
      rcases hE : get_empty_cells g with _ | ⟨a, l⟩
      · rw [hE] at hmem; cases hmem
      · rfl
    rw [hne, Bool.false_and]
  · have hcond : (get_valid_numbers g 0 0 == [getCell g 0 0]) = false := by
      apply beq_eq_false_iff_ne.2
      intro heq
      have hm : getCell g 0 0 ∈ get_valid_numbers g 0 0 := by
        rw [heq]; exact List.mem_singleton_self _
      rw [get_valid_numbers] at hm
      have hdec := List.of_mem_filter hm
      have hnot : getCell g 0 0 ∉ get_row g 0 ++ get_col g 0 ++ get_box g 0 0 :=
        of_decide_eq_true hdec
      apply hnot
      have hrow : getCell g 0 0 ∈ get_row g 0 := by
        rw [get_row]
        rcases hrow0 : g.getD 0 [] with _ | ⟨a, t⟩
        · exfalso; apply h0; rw [getCell, hrow0]; rfl
        · have : getCell g 0 0 = a := by rw [getCell, hrow0]; rfl
          rw [this]; exact List.mem_cons_self a t
      exact List.mem_append_left _ (List.mem_append_left _ hrow)
    have hall : ¬ (((List.range 9).all fun i => (List.range 9).all fun j =>
        get_valid_numbers g i j == [getCell g i j]) = true) := by
      intro hA
      have h1 := List.all_eq_true.1 hA 0 (by simp)
      have h2 := List.all_eq_true.1 h1 0 (by simp)
      rw [hcond] at h2
      cases h2
    rw [Bool.not_eq_true] at hall
    rw [hall, Bool.and_false]

/-! ### The sampling loop never restores a cell -/

theorem sampling_trials_id (n : Nat) :
    ∀ count g i j temp, count ≤ 1 → sampling_trials n count g i j temp = g := by
  induction n with
  | zero => intro count g i j temp _; rfl
  | succ n ih =>
    intro count g i j temp hc
    rw [sampling_trials]
    simp only [is_solved_false, if_false, Bool.false_eq_true]
    rw [if_neg (by omega)]
    exact ih count g i j temp hc

theorem sampling_trials_zero (n : Nat) (g : Grid) (i j temp : Nat) :
    sampling_trials n 0 g i j temp = g :=
  sampling_trials_id n 0 g i j temp (by omega)

end Sudoku

namespace Sudoku

/-! ### `argminFirst` and MRV cell selection -/

theorem argminFirst_mem (f : α → Nat) (a : α) (l : List α) :
    argminFirst f a l ∈ a :: l := by
  induction l generalizing a with
  | nil => simp [argminFirst]
  | cons x xs ih =>
    rw [argminFirst]
    split
    · rcases List.mem_cons.1 (ih x) with h | h
      · rw [h]; exact List.mem_cons_of_mem _ (List.mem_cons_self _ _)
      · exact List.mem_cons_of_mem _ (List.mem_cons_of_mem _ h)
    · rcases List.mem_cons.1 (ih a) with h | h
      · rw [h]; exact List.mem_cons_self _ _
      · exact List.mem_cons_of_mem _ (List.mem_cons_of_mem _ h)

theorem argminFirst_le (f : α → Nat) (a : α) (l : List α) :
    ∀ x ∈ a :: l, f (argminFirst f a l) ≤ f x := by
  induction l generalizing a with
  | nil =>
    intro x hx
    rcases List.mem_cons.1 hx with rfl | h
    · exact Nat.le_refl _
    · cases h
  | cons y ys ih =>
    intro x hx
    rw [argminFirst]
    split
    · rename_i hlt
      rcases List.mem_cons.1 hx with h | hx'
      · rw [h]
        exact Nat.le_of_lt (Nat.lt_of_le_of_lt (ih y y (List.mem_cons_self _ _)) hlt)
      · exact ih y x hx'
    · rename_i hnlt
      rcases List.mem_cons.1 hx with h | hx'
      · rw [h]
        exact ih a a (List.mem_cons_self _ _)
      · rcases List.mem_cons.1 hx' with h | hx''
        · rw [h]
          exact Nat.le_trans (ih a a (List.mem_cons_self _ _)) (Nat.le_of_not_lt hnlt)
        · exact ih a x (List.mem_cons_of_mem _ hx'')

theorem argminFirst_first (f : α → Nat) (a : α) (l : List α) :
    ∃ l₁ l₂, a :: l = l₁ ++ argminFirst f a l :: l₂ ∧
      ∀ x ∈ l₁, f (argminFirst f a l) < f x := by
  induction l generalizing a with
  | nil => exact ⟨[], [], rfl, by simp⟩
  | cons y ys ih =>
    rw [argminFirst]
    split
    · rename_i hlt
      obtain ⟨l₁, l₂, heq, hstrict⟩ := ih y
      refine ⟨a :: l₁, l₂, ?_, ?_⟩
      · rw [List.cons_append, ← heq]
      · intro x hx
        rcases List.mem_cons.1 hx with rfl | hx'
        · exact Nat.lt_of_le_of_lt (argminFirst_le f y ys y (List.mem_cons_self _ _)) hlt
        · exact hstrict x hx'
    · rename_i hnlt
      obtain ⟨l₁, l₂, heq, hstrict⟩ := ih a
      rcases l₁ with _ | ⟨b, t⟩
      · rw [List.nil_append] at heq
        have h1 : a = argminFirst f a ys := (List.cons_eq_cons.1 heq).1
        refine ⟨[], y :: ys, ?_, by simp⟩
        rw [List.nil_append, ← h1]
      · rw [List.cons_append] at heq
        have h1 : a = b := (List.cons_eq_cons.1 heq).1
        have h2 : ys = t ++ argminFirst f a ys :: l₂ := (List.cons_eq_cons.1 heq).2
        refine ⟨a :: y :: t, l₂, ?_, ?_⟩
        · rw [List.cons_append, List.cons_append, ← h2]
        · intro x hx
          have hfa : f (argminFirst f a ys) < f a := by
            apply hstrict
            rw [h1]
            exact List.mem_cons_self _ _
          rcases List.mem_cons.1 hx with h | hx'
          · rw [h]; exact hfa
          · rcases List.mem_cons.1 hx' with h | hx''
            · rw [h]
              exact Nat.lt_of_lt_of_le hfa (Nat.le_of_not_lt hnlt)
            · exact hstrict x (List.mem_cons_of_mem _ hx'')

theorem mrv_none_iff (g : Grid) :
    get_min_remaining_values_cell g = none ↔ get_empty_cells g = [] := by
  rw [get_min_remaining_values_cell]
  cases h : get_empty_cells g <;> simp

theorem mrv_some_mem (g : Grid) (r c : Nat)
    (h : get_min_remaining_values_cell g = some (r, c)) :
    (r, c) ∈ get_empty_cells g := by
  rw [get_min_remaining_values_cell] at h
  cases hE : get_empty_cells g with
  | nil =>
    rw [hE] at h
    exact absurd h (by simp)
  | cons a l =>
    rw [hE] at h
    have h' : some (argminFirst (fun p => (get_valid_numbers g p.1 p.2).length) a l)
        = some (r, c) := h
    rw [← Option.some.inj h']
    exact argminFirst_mem _ a l

/-! ### Candidate lists -/

theorem mem_get_valid_numbers (g : Grid) (row col n : Nat) :
    n ∈ get_valid_numbers g row col ↔
      1 ≤ n ∧ n ≤ 9 ∧ n ∉ get_row g row ∧ n ∉ get_col g col ∧ n ∉ get_box g row col := by
  rw [get_valid_numbers, List.mem_filter, List.mem_range'_1, decide_eq_true_eq,
    List.mem_append, List.mem_append, not_or, not_or]
  constructor
  · rintro ⟨⟨h1, h2⟩, ⟨ha, hb⟩, hc⟩
    exact ⟨h1, by omega, ha, hb, hc⟩
  · rintro ⟨h1, h2, ha, hb, hc⟩
    exact ⟨⟨h1, by omega⟩, ⟨ha, hb⟩, hc⟩

theorem get_valid_numbers_sorted (g : Grid) (row col : Nat) :
    List.Sorted (· < ·) (get_valid_numbers g row col) := by
  rw [get_valid_numbers]
  exact (List.pairwise_lt_range' 1 9).filter _

theorem get_valid_numbers_pos (g : Grid) (row col n : Nat)
    (h : n ∈ get_valid_numbers g row col) : n ≠ 0 := by
  have := (mem_get_valid_numbers g row col n).1 h
  omega

/-! ### A failed solve restores the grid -/

theorem tryNums_false (n r c : Nat)
    (IH : ∀ g gf, solveFuel n g = some (false, gf) → gf = g) :
    ∀ l g gf, getCell g r c = 0 →
      tryNums (solveFuel n) r c g l = some (false, gf) → gf = g := by
  intro l
  induction l with
  | nil =>
    intro g gf h0 h
    rw [tryNums] at h
    exact ((Prod.mk.injEq .. ▸ Option.some.inj h).2).symm
  | cons v vs ih =>
    intro g gf h0 h
    rw [tryNums] at h
    cases hs : solveFuel n (setCell g r c v) with
    | none => rw [hs] at h; cases h
    | some p =>
      rcases p with ⟨b, g2⟩
      cases b
      · rw [hs] at h
        have hg2 : g2 = setCell g r c v := IH _ _ hs
        have hreset : setCell g2 r c 0 = g := by
          rw [hg2, setCell_setCell, setCell_self g r c h0]
        have h2 : tryNums (solveFuel n) r c (setCell g2 r c 0) vs = some (false, gf) := h
        rw [hreset] at h2
        exact ih g gf h0 h2
      · rw [hs] at h
        cases (Prod.mk.injEq .. ▸ Option.some.inj h).1

theorem solveFuel_false (n : Nat) :
    ∀ g gf, solveFuel n g = some (false, gf) → gf = g := by
  induction n with
  | zero => intro g gf h; cases h
  | succ n IH =>
    intro g gf h
    rw [solveFuel] at h
    cases hm : get_min_remaining_values_cell g with
    | none =>
      rw [hm] at h
      cases (Prod.mk.injEq .. ▸ Option.some.inj h).1
    | some rc =>
      rcases rc with ⟨r, c⟩
      rw [hm] at h
      have h0 : getCell g r c = 0 :=
        ((mem_get_empty_cells g r c).1 (mrv_some_mem g r c hm)).2.2
      exact tryNums_false n r c IH _ g gf h0 h

end Sudoku

namespace Sudoku

/-! ### Counting empty cells -/

theorem flatMap_length_congr (l : List α) (f h : α → List β)
    (H : ∀ a ∈ l, (f a).length = (h a).length) :
    (l.flatMap f).length = (l.flatMap h).length := by
  induction l with
  | nil => rfl
  | cons x xs ih =>
    rw [List.flatMap_cons, List.flatMap_cons, List.length_append, List.length_append,
      H x (List.mem_cons_self _ _), ih (fun a ha => H a (List.mem_cons_of_mem _ ha))]

theorem flatMap_length_succ (l : List α) (f h : α → List β) (a0 : α)
    (hnd : l.Nodup) (ha : a0 ∈ l)
    (same : ∀ a ∈ l, a ≠ a0 → (f a).length = (h a).length)
    (diff : (h a0).length = (f a0).length + 1) :
    (l.flatMap h).length = (l.flatMap f).length + 1 := by
  induction l with
  | nil => cases ha
  | cons x xs ih =>
    rw [List.flatMap_cons, List.flatMap_cons, List.length_append, List.length_append]
    rcases List.mem_cons.1 ha with h1 | h1
    · have hnx : a0 ∉ xs := by rw [h1]; exact (List.nodup_cons.1 hnd).1
      have hxs : (xs.flatMap f).length = (xs.flatMap h).length := by
        apply flatMap_length_congr
        intro a haxs
        exact same a (List.mem_cons_of_mem _ haxs) (fun he => hnx (he ▸ haxs))
      rw [← h1, diff, ← hxs]
      omega
    · have hx : x ≠ a0 := fun he => (List.nodup_cons.1 hnd).1 (by rw [he]; exact h1)
      rw [same x (List.mem_cons_self _ _) hx,
        ih (List.nodup_cons.1 hnd).2 h1
          (fun a ha' hne => same a (List.mem_cons_of_mem _ ha') hne)]
      omega

theorem filter_length_succ (l : List α) (p q : α → Bool) (a0 : α)
    (hnd : l.Nodup) (ha : a0 ∈ l)
    (same : ∀ a ∈ l, a ≠ a0 → p a = q a)
    (hp : p a0 = false) (hq : q a0 = true) :
    (l.filter q).length = (l.filter p).length + 1 := by
  induction l with
  | nil => cases ha
  | cons x xs ih =>
    rcases List.mem_cons.1 ha with h1 | h1
    · have hnx : a0 ∉ xs := by rw [h1]; exact (List.nodup_cons.1 hnd).1
      have hxs : xs.filter p = xs.filter q := by
        apply List.filter_congr
        intro a haxs
        exact same a (List.mem_cons_of_mem _ haxs) (fun he => hnx (he ▸ haxs))
      subst h1
      rw [List.filter_cons, List.filter_cons, hp, hq, if_pos rfl,
        if_neg (fun hh => nomatch hh), hxs, List.length_cons]
    · have hx : x ≠ a0 := fun he => (List.nodup_cons.1 hnd).1 (by rw [he]; exact h1)
      have hpx := same x (List.mem_cons_self _ _) hx
      have ihx := ih (List.nodup_cons.1 hnd).2 h1
        (fun a ha' hne => same a (List.mem_cons_of_mem _ ha') hne)
      rw [List.filter_cons, List.filter_cons, ← hpx]
      by_cases hcase : p x = true
      · rw [if_pos hcase, if_pos hcase, List.length_cons, List.length_cons, ihx]
      · rw [if_neg hcase, if_neg hcase, ihx]

theorem length_filterMap_ite (l : List α) (P : α → Prop) [DecidablePred P] (f : α → β) :
    (l.filterMap (fun a => if P a then some (f a) else none)).length
      = (l.filter (fun a => decide (P a))).length := by
  induction l with
  | nil => rfl
  | cons x xs ih =>
    by_cases h : P x
    · simp [List.filterMap_cons, List.filter_cons, h, ih]
    · simp [List.filterMap_cons, List.filter_cons, h, ih]

theorem empty_cells_length_succ (g : Grid) (r c : Nat) (hr : r < 9) (hc : c < 9)
    (h0 : getCell g r c ≠ 0) :
    (get_empty_cells (setCell g r c 0)).length = (get_empty_cells g).length + 1 := by
  rw [get_empty_cells, get_empty_cells]
  apply flatMap_length_succ _ _ _ r (List.nodup_range 9) (List.mem_range.2 hr)
  · intro i hi hir
    congr 1
    apply List.filterMap_congr
    intro j hj
    rw [getCell_setCell_ne g r c 0 i j (Or.inl hir)]
  · rw [length_filterMap_ite, length_filterMap_ite]
    apply filter_length_succ _ _ _ c (List.nodup_range 9) (List.mem_range.2 hc)
    · intro j hj hjc
      rw [getCell_setCell_ne g r c 0 r j (Or.inr hjc)]
    · exact decide_eq_false h0
    · rw [getCell_setCell_zero g r c]
      exact decide_eq_true rfl

theorem empty_cells_length_fill (g : Grid) (r c v : Nat) (hWF : WF9 g) (hr : r < 9)
    (hc : c < 9) (h0 : getCell g r c = 0) (hv : v ≠ 0) :
    (get_empty_cells g).length = (get_empty_cells (setCell g r c v)).length + 1 := by
  have hvrc : getCell (setCell g r c v) r c = v := by
    apply getCell_setCell_self
    · have := hWF.1
      omega
    · rw [row_length g r hWF hr]
      omega
  rw [get_empty_cells, get_empty_cells]
  apply flatMap_length_succ _ _ _ r (List.nodup_range 9) (List.mem_range.2 hr)
  · intro i hi hir
    congr 1
    apply List.filterMap_congr
    intro j hj
    rw [getCell_setCell_ne g r c v i j (Or.inl hir)]
  · rw [length_filterMap_ite, length_filterMap_ite]
    apply filter_length_succ _ _ _ c (List.nodup_range 9) (List.mem_range.2 hc)
    · intro j hj hjc
      rw [getCell_setCell_ne g r c v r j (Or.inr hjc)]
    · rw [hvrc]
      exact decide_eq_false hv
    · exact decide_eq_true h0

theorem flatMap_length_le (l : List α) (f : α → List β) (k : Nat)
    (H : ∀ a ∈ l, (f a).length ≤ k) :
    (l.flatMap f).length ≤ k * l.length := by
  induction l with
  | nil => simp
  | cons x xs ih =>
    rw [List.flatMap_cons, List.length_append, List.length_cons]
    have h1 := H x (List.mem_cons_self _ _)
    have h2 := ih (fun a ha => H a (List.mem_cons_of_mem _ ha))
    have : k * (xs.length + 1) = k * xs.length + k := by ring
    omega

theorem empty_cells_length_le (g : Grid) : (get_empty_cells g).length ≤ 81 := by
  rw [get_empty_cells]
  have h := flatMap_length_le (List.range 9)
    (fun i => (List.range 9).filterMap (fun j =>
      if getCell g i j = 0 then some (i, j) else none)) 9
    (fun a _ => Nat.le_trans (List.length_filterMap_le _ _) (by simp))
  simpa using h

/-! ### Totality of the fueled solver -/

theorem solveFuel_total : ∀ (n : Nat) (g : Grid), WF9 g →
    (get_empty_cells g).length < n → (solveFuel n g).isSome = true := by
  intro n
  induction n with
  | zero => intro g _ h; omega
  | succ n IH =>
    intro g hWF hlen
    rw [solveFuel]
    cases hm : get_min_remaining_values_cell g with
    | none => rfl
    | some rc =>
      rcases rc with ⟨r, c⟩
      obtain ⟨hr, hc, h0⟩ := (mem_get_empty_cells g r c).1 (mrv_some_mem g r c hm)
      have haux : ∀ l, (∀ v ∈ l, v ≠ 0) →
          (tryNums (solveFuel n) r c g l).isSome = true := by
        intro l
        induction l with
        | nil => intro _; rfl
        | cons v vs ih =>
          intro hvl
          have hWF' := WF9_setCell g r c v hWF
          have hZ := empty_cells_length_fill g r c v hWF hr hc h0
            (hvl v (List.mem_cons_self _ _))
          have hlt : (get_empty_cells (setCell g r c v)).length < n := by omega
          have hs := IH (setCell g r c v) hWF' hlt
          rw [tryNums]
          cases hsv : solveFuel n (setCell g r c v) with
          | none => rw [hsv] at hs; cases hs
          | some p =>
            rcases p with ⟨b, g2⟩
            cases b
            · have hg2 : g2 = setCell g r c v := solveFuel_false n _ _ hsv
              show (tryNums (solveFuel n) r c (setCell g2 r c 0) vs).isSome = true
              rw [hg2, setCell_setCell, setCell_self g r c h0]
              exact ih (fun v' hv' => hvl v' (List.mem_cons_of_mem _ hv'))
            · rfl
      show (tryNums (solveFuel n) r c g (get_valid_numbers g r c)).isSome = true
      exact haux _ (fun v hv => get_valid_numbers_pos g r c v hv)

/-! ### The removal loop -/

theorem remove_cells_derived (t : Nat) : ∀ (cells : List (Nat × Nat)) (g : Grid) (i j : Nat),
    getCell (remove_cells t cells g) i j = 0 ∨
      getCell (remove_cells t cells g) i j = getCell g i j := by
  intro cells
  induction cells with
  | nil => intro g i j; right; rfl
  | cons p rest ih =>
    rcases p with ⟨a, b⟩
    intro g i j
    simp only [remove_cells, sampling_trials_zero]
    have hstep : getCell (setCell g a b 0) i j = 0 ∨
        getCell (setCell g a b 0) i j = getCell g i j := by
      by_cases hij : i = a ∧ j = b
      · left; rw [hij.1, hij.2]; exact getCell_setCell_zero g a b
      · right
        rw [getCell_setCell_ne g a b 0 i j (by tauto)]
    split
    · exact hstep
    · rcases ih (setCell g a b 0) i j with h | h
      · left; exact h
      · rcases hstep with h2 | h2
        · left; rw [h, h2]
        · right; rw [h, h2]

theorem remove_cells_count (t : Nat) : ∀ (cells : List (Nat × Nat)) (g : Grid), WF9 g →
    cells.Nodup →
    (∀ p ∈ cells, p.1 < 9 ∧ p.2 < 9 ∧ getCell g p.1 p.2 ≠ 0) →
    t ≤ (get_empty_cells g).length + cells.length →
    t ≤ (get_empty_cells (remove_cells t cells g)).length := by
  intro cells
  induction cells with
  | nil =>
    intro g _ _ _ hle
    rw [remove_cells]
    simpa using hle
  | cons p rest ih =>
    rcases p with ⟨a, b⟩
    intro g hWF hnd hmem hle
    obtain ⟨ha9, hb9, hnz⟩ := hmem (a, b) (List.mem_cons_self _ _)
    have hZ : (get_empty_cells (setCell g a b 0)).length
        = (get_empty_cells g).length + 1 :=
      empty_cells_length_succ g a b ha9 hb9 hnz
    simp only [remove_cells, sampling_trials_zero]
    split
    · rename_i hcond
      exact hcond
    · apply ih (setCell g a b 0) (WF9_setCell g a b 0 hWF) (List.nodup_cons.1 hnd).2
      · intro q hq
        obtain ⟨hq1, hq2, hq3⟩ := hmem q (List.mem_cons_of_mem _ hq)
        refine ⟨hq1, hq2, ?_⟩
        have hqne : q ≠ (a, b) := fun he => (List.nodup_cons.1 hnd).1 (he ▸ hq)
        rw [getCell_setCell_ne g a b 0 q.1 q.2 ?_]
        · exact hq3
        · by_contra hcon
          push_neg at hcon
          exact hqne (Prod.ext hcon.1 hcon.2)
      · rw [hZ]
        rw [List.length_cons] at hle
        omega

end Sudoku

namespace Sudoku

theorem unsolvable_eval : Board.solve unsolvable_grid = (false, unsolvable_grid) := by decide

theorem lookup_difficulty_none (d : String)
    (h : d ∉ ["easy", "medium", "hard", "expert"]) :
    lookup_difficulty d = none := by
  simp only [List.mem_cons, not_or] at h
  obtain ⟨h1, h2, h3, h4, _⟩ := h
  rw [lookup_difficulty, difficulty_values]
  have e1 : ((("easy" : String), 30).1 == d) = false :=
    beq_eq_false_iff_ne.2 (fun he => h1 he.symm)
  have e2 : ((("medium" : String), 40).1 == d) = false :=
    beq_eq_false_iff_ne.2 (fun he => h2 he.symm)
  have e3 : ((("hard" : String), 50).1 == d) = false :=
    beq_eq_false_iff_ne.2 (fun he => h3 he.symm)
  have e4 : ((("expert" : String), 60).1 == d) = false :=
    beq_eq_false_iff_ne.2 (fun he => h4 he.symm)
  simp [List.find?, e1, e2, e3, e4]

/-- C1: `solve()` on the all-zero grid returns True and every row, column and
3x3 box of the resulting grid is a permutation of the digits 1-9. -/
theorem solve_empty_fills_grid :
    (Board.solve empty_grid).1 = true ∧ all_units_perm (Board.solve empty_grid).2 := by
  rw [solve_empty_eval]
  exact ⟨rfl, by decide⟩

/-- C2: `is_solved()` returns False on every grid (a filled cell's own value
sits in its row, so its candidate list can never be the singleton of that
value), hence the sampling loop of `__create_board` never increments its
count and never restores a cleared cell. -/
theorem is_solved_always_false :
    (∀ g : Grid, is_solved g = false) ∧
    (∀ (n : Nat) (g : Grid) (i j temp : Nat), sampling_trials n 0 g i j temp = g) :=
  ⟨is_solved_false, fun n g i j temp => sampling_trials_zero n g i j temp⟩

/-- C3 (code bug): `solved_base` is completely filled and conflict-free, yet
`is_solved` answers False on it, both times it is called. -/
theorem is_solved_false_on_solved_grid :
    get_empty_cells solved_base = [] ∧ all_units_perm solved_base ∧
      is_solved solved_base = false ∧ is_solved solved_base = false :=
  ⟨by decide, by decide, is_solved_false _, is_solved_false _⟩

/-- C4: constructing a Board with difficulty "easy" (for any shuffle order of
the 81 cells) succeeds and yields a grid with at least 30 empty cells, each
cell either cleared or keeping its value from the fully solved grid
`solved_base` the construction started from. -/
theorem easy_board_min_30_empty (order : List (Nat × Nat))
    (horder : order.Perm all_cells) :
    ∃ g, board_init "easy" order = Except.ok g ∧
      30 ≤ (get_empty_cells g).length ∧
      (∀ i j, getCell g i j = 0 ∨ getCell g i j = getCell solved_base i j) ∧
      get_empty_cells solved_base = [] ∧ all_units_perm solved_base := by
  have hlookup : lookup_difficulty "easy" = some 30 := by rfl
  have hgen : board_init "easy" order = Except.ok (remove_cells 30 order solved_base) := by
    simp [board_init, assert_cond, create_board, solve_empty_eval, hlookup]
  refine ⟨remove_cells 30 order solved_base, hgen, ?_,
    remove_cells_derived 30 order solved_base, by decide, by decide⟩
  have hnodup : order.Nodup := (horder.nodup_iff).2 (by decide)
  have hlen : order.length = all_cells.length := horder.length_eq
  have hall : all_cells.length = 81 := by decide
  apply remove_cells_count 30 order solved_base (by decide) hnodup
  · intro p hp
    have hpmem : p ∈ all_cells := (horder.mem_iff).1 hp
    have h1 := (show ∀ q ∈ all_cells, q.1 < 9 ∧ q.2 < 9 by decide) p hpmem
    have h2 := (show ∀ q ∈ all_cells, getCell solved_base q.1 q.2 ≠ 0 by decide) p hpmem
    exact ⟨h1.1, h1.2, h2⟩
  · have hZ0 : (get_empty_cells solved_base).length = 0 := by decide
    omega

theorem easy_board_min_30_empty_witness :
    all_cells.Perm all_cells ∧
    (∃ g, board_init "easy" all_cells = Except.ok g ∧
      30 ≤ (get_empty_cells g).length ∧
      (∀ i j, getCell g i j = 0 ∨ getCell g i j = getCell solved_base i j) ∧
      get_empty_cells solved_base = [] ∧ all_units_perm solved_base) :=
  ⟨List.Perm.refl _, easy_board_min_30_empty all_cells (List.Perm.refl _)⟩

/-- C5: whenever `solve()` returns False the grid is exactly as before the
call: every tentative placement was undone. -/
theorem solve_false_restores (g gf : Grid) (h : Board.solve g = (false, gf)) :
    gf = g := by
  rw [Board.solve] at h
  cases hs : solveFuel 82 g with
  | none =>
    rw [hs] at h
    have h' : ((false : Bool), g) = ((false : Bool), gf) := h
    exact ((Prod.mk.injEq .. ▸ h').2).symm
  | some p =>
    rw [hs] at h
    have h' : p = ((false : Bool), gf) := h
    rw [h'] at hs
    exact solveFuel_false 82 g gf hs

theorem solve_false_restores_witness :
    Board.solve unsolvable_grid = (false, unsolvable_grid) ∧
      unsolvable_grid = unsolvable_grid :=
  ⟨unsolvable_eval, by
    have h := solve_false_restores unsolvable_grid unsolvable_grid unsolvable_eval
    rw [h]⟩

/-- C6: `get_valid_numbers(r, c)` is the ascending list of the digits 1-9
absent from the row, the column and the box of the cell. -/
theorem valid_numbers_spec (g : Grid) (r c : Nat) (hr : r < 9) (hc : c < 9) :
    List.Sorted (· < ·) (get_valid_numbers g r c) ∧
    ∀ n, n ∈ get_valid_numbers g r c ↔
      1 ≤ n ∧ n ≤ 9 ∧ n ∉ get_row g r ∧ n ∉ get_col g c ∧ n ∉ get_box g r c :=
  ⟨get_valid_numbers_sorted g r c, fun n => mem_get_valid_numbers g r c n⟩

theorem valid_numbers_spec_witness :
    (0 < 9) ∧ (List.Sorted (· < ·) (get_valid_numbers solved_base 0 0) ∧
    ∀ n, n ∈ get_valid_numbers solved_base 0 0 ↔
      1 ≤ n ∧ n ≤ 9 ∧ n ∉ get_row solved_base 0 ∧ n ∉ get_col solved_base 0 ∧
        n ∉ get_box solved_base 0 0) :=
  ⟨by decide, valid_numbers_spec solved_base 0 0 (by decide) (by decide)⟩

/-- C7: the MRV selection returns `none` exactly when there is no empty cell;
otherwise it returns an empty cell of minimal candidate count, the first such
cell in the enumeration order of `get_empty_cells`. -/
theorem mrv_cell_spec (g : Grid) :
    (get_min_remaining_values_cell g = none ↔ get_empty_cells g = []) ∧
    ∀ r c, get_min_remaining_values_cell g = some (r, c) →
      (r, c) ∈ get_empty_cells g ∧
      (∀ p ∈ get_empty_cells g,
        (get_valid_numbers g r c).length ≤ (get_valid_numbers g p.1 p.2).length) ∧
      ∃ l₁ l₂, get_empty_cells g = l₁ ++ (r, c) :: l₂ ∧
        ∀ p ∈ l₁,
          (get_valid_numbers g r c).length < (get_valid_numbers g p.1 p.2).length := by
  refine ⟨mrv_none_iff g, ?_⟩
  intro r c h
  refine ⟨mrv_some_mem g r c h, ?_, ?_⟩
  · intro p hp
    rw [get_min_remaining_values_cell] at h
    cases hE : get_empty_cells g with
    | nil => rw [hE] at hp; cases hp
    | cons a l =>
      rw [hE] at h hp
      have h' : some (argminFirst (fun p => (get_valid_numbers g p.1 p.2).length) a l)
          = some (r, c) := h
      have harg := argminFirst_le (fun p => (get_valid_numbers g p.1 p.2).length) a l p hp
      rw [Option.some.inj h'] at harg
      exact harg
  · rw [get_min_remaining_values_cell] at h
    cases hE : get_empty_cells g with
    | nil => rw [hE] at h; exact absurd h (by simp)
    | cons a l =>
      rw [hE] at h
      have h' : some (argminFirst (fun p => (get_valid_numbers g p.1 p.2).length) a l)
          = some (r, c) := h
      obtain ⟨l₁, l₂, heq, hstrict⟩ :=
        argminFirst_first (fun p => (get_valid_numbers g p.1 p.2).length) a l
      rw [Option.some.inj h'] at heq hstrict
      exact ⟨l₁, l₂, heq, hstrict⟩

theorem mrv_cell_spec_witness :
    get_min_remaining_values_cell empty_grid = some (0, 0) ∧
    ((0, 0) ∈ get_empty_cells empty_grid ∧
      (∀ p ∈ get_empty_cells empty_grid,
        (get_valid_numbers empty_grid 0 0).length
          ≤ (get_valid_numbers empty_grid p.1 p.2).length) ∧
      ∃ l₁ l₂, get_empty_cells empty_grid = l₁ ++ (0, 0) :: l₂ ∧
        ∀ p ∈ l₁,
          (get_valid_numbers empty_grid 0 0).length
            < (get_valid_numbers empty_grid p.1 p.2).length) :=
  ⟨by decide, (mrv_cell_spec empty_grid).2 0 0 (by decide)⟩

/-- C8 counterexample: writing through the list returned by `get_row` changes
the board's grid — `get_row` returns the internal row object by reference. -/
theorem get_row_alias_counterexample :
    RefModel.observed_grid
        (RefModel.write_elem RefModel.heap0 (RefModel.get_row_ref RefModel.rows0 0) 0 5)
        RefModel.rows0
      ≠ RefModel.observed_grid RefModel.heap0 RefModel.rows0 := by decide

/-- C8 amended: `get_col` returns the column by value — mutating its result
never changes the board — while `get_row` returns the row by reference, and
mutating its result can change the board. -/
theorem row_col_copy_semantics :
    (∀ (heap : List (List Nat)) (rows : List Nat) (col k v : Nat),
      (∀ a ∈ rows, a < heap.length) →
      RefModel.observed_grid
        (RefModel.write_elem (RefModel.get_col_ref heap rows col).1
          (RefModel.get_col_ref heap rows col).2 k v) rows
        = RefModel.observed_grid heap rows) ∧
    (∃ heap rows k v,
      RefModel.observed_grid
          (RefModel.write_elem heap (RefModel.get_row_ref rows 0) k v) rows
        ≠ RefModel.observed_grid heap rows) := by
  constructor
  · intro heap rows col k v hrows
    apply List.map_congr_left
    intro a ha
    have hal := hrows a ha
    simp only [RefModel.get_col_ref, RefModel.write_elem, RefModel.deref,
      List.getD_eq_getElem?_getD]
    rw [List.getElem?_set_ne (Nat.ne_of_gt hal), List.getElem?_append_left hal]
  · exact ⟨RefModel.heap0, RefModel.rows0, 0, 5, by decide⟩

theorem row_col_copy_semantics_witness :
    (∀ a ∈ RefModel.rows0, a < RefModel.heap0.length) ∧
    RefModel.observed_grid
        (RefModel.write_elem (RefModel.get_col_ref RefModel.heap0 RefModel.rows0 0).1
          (RefModel.get_col_ref RefModel.heap0 RefModel.rows0 0).2 0 5) RefModel.rows0
      = RefModel.observed_grid RefModel.heap0 RefModel.rows0 :=
  ⟨by decide, row_col_copy_semantics.1 RefModel.heap0 RefModel.rows0 0 0 5 (by decide)⟩

/-- C9: an unrecognized difficulty label passes the (vacuous) assert but makes
construction fail with an error (the dict lookup raises KeyError), so
construction never completes silently. -/
theorem invalid_difficulty_rejected (d : String) (order : List (Nat × Nat))
    (h : d ∉ ["easy", "medium", "hard", "expert"]) :
    assert_cond d = true ∧ ∃ e, board_init d order = Except.error e := by
  refine ⟨rfl, "KeyError", ?_⟩
  have hb : board_init d order = create_board d order := by
    simp [board_init, assert_cond]
  rw [hb]
  simp [create_board, lookup_difficulty_none d h]

theorem invalid_difficulty_rejected_witness :
    "foo" ∉ ["easy", "medium", "hard", "expert"] ∧
      (assert_cond "foo" = true ∧ ∃ e, board_init "foo" [] = Except.error e) :=
  ⟨by decide, invalid_difficulty_rejected "foo" [] (by decide)⟩

/-- C10: on every well-formed 9x9 grid the solver terminates: the fueled
recursion never exhausts its fuel (82 exceeds the empty-cell count, which
strictly decreases at each recursive call), and `Board.solve` returns its
Boolean verdict and final grid. -/
theorem solve_terminates (g : Grid) (hWF : WF9 g)
    (hvals : ∀ i < 9, ∀ j < 9, getCell g i j ≤ 9) :
    ∃ (b : Bool) (gf : Grid), solveFuel 82 g = some (b, gf) ∧
      Board.solve g = (b, gf) := by
  have h81 := empty_cells_length_le g
  have hT := solveFuel_total 82 g hWF (by omega)
  cases hs : solveFuel 82 g with
  | none => rw [hs] at hT; cases hT
  | some p =>
    rcases p with ⟨b, gf⟩
    refine ⟨b, gf, rfl, ?_⟩
    rw [Board.solve, hs]
    rfl

theorem solve_terminates_witness :
    WF9 empty_grid ∧ (∀ i < 9, ∀ j < 9, getCell empty_grid i j ≤ 9) ∧
      ∃ (b : Bool) (gf : Grid), solveFuel 82 empty_grid = some (b, gf) ∧
        Board.solve empty_grid = (b, gf) :=
  ⟨by decide, by decide, solve_terminates empty_grid (by decide) (by decide)⟩

end Sudoku
